import Mathlib

/-
Verification of the trade-lifecycle ledger and notification-delivery queue of
the Neural-2026 trading bot (`src/main.py`).

The Python program is shallowly embedded:
* the `Trade` dataclass becomes a Lean structure (floats become `ℚ`,
  Python's mutable object identity is modelled by an explicit heap of
  trade objects indexed by `Nat` references, so that the aliasing between
  `active_trades`, `daily_trades`, `weekly_trades` and `closed_trades`
  is represented faithfully);
* `TradeTracker` methods become pure state-passing functions;
* the Telegram transport is abstracted by per-attempt outcome oracles
  (the message body templating is presentation-only and is represented by
  the event kind; wall-clock timestamps are abstracted by a constant).
-/

/-- The `Trade` dataclass of `main.py`. Numeric fields are `ℚ`
(the program only ever assigns the exact values 0, 1.5, 2.5, 4.0, -1.0 to
`profit_r`). Default values mirror the dataclass defaults. -/
structure Trade where
  id : String := ""
  symbol : String := ""
  direction : String := ""
  signal_type : String := ""
  pattern : String := ""
  entry : ℚ := 0
  stop_loss : ℚ := 0
  tp1 : ℚ := 0
  tp2 : ℚ := 0
  tp3 : ℚ := 0
  score : Int := 0
  mode : String := ""
  session : String := ""
  timeframe : String := ""
  bubble_strength : Int := 0
  exhaustion_detected : Bool := false
  htf_trend : String := ""
  strict_mode : Bool := false
  quantum_mode : Bool := false
  zero_lag : Bool := false
  timestamp : String := ""
  tp1_hit : Bool := false
  tp2_hit : Bool := false
  tp3_hit : Bool := false
  sl_hit : Bool := false
  closed : Bool := false
  final_result : String := "ACTIVE"
  profit_r : ℚ := 0
  tp1_notified : Bool := false
  tp2_notified : Bool := false
  tp3_notified : Bool := false
  sl_notified : Bool := false
  deriving DecidableEq

/-- The `TradeTracker` state. Python's trade *objects* live in `heap`
(allocated at `nextRef`, `nextRef + 1`, ...); `active_trades` maps a trade id
to the reference of its current object (dict), while the history and the two
rolling windows hold object references (list aliasing, as in Python).
The four `*_sent` sets are modelled as lists of ids. -/
structure TradeTracker where
  heap : Nat → Trade
  nextRef : Nat
  active_trades : String → Option Nat
  closed_trades : List Nat
  daily_trades : List Nat
  weekly_trades : List Nat
  tp1_sent : List String
  tp2_sent : List String
  tp3_sent : List String
  sl_sent : List String

/-- Fresh tracker, as built by `TradeTracker.__init__`. -/
def initTracker : TradeTracker where
  heap := fun _ => {}
  nextRef := 0
  active_trades := fun _ => none
  closed_trades := []
  daily_trades := []
  weekly_trades := []
  tp1_sent := []
  tp2_sent := []
  tp3_sent := []
  sl_sent := []

/-- `TradeTracker.add_trade`: store the (fresh) trade object, bind its id in
`active_trades`, and append the object to both rolling windows. -/
def add_trade (tr : TradeTracker) (t : Trade) : TradeTracker :=
  { tr with
    heap := fun r => if r = tr.nextRef then t else tr.heap r
    nextRef := tr.nextRef + 1
    active_trades := fun k => if k = t.id then some tr.nextRef else tr.active_trades k
    daily_trades := tr.daily_trades ++ [tr.nextRef]
    weekly_trades := tr.weekly_trades ++ [tr.nextRef] }

/-- `TradeTracker.should_send_tp1`: the TP1 idempotency gate (check-and-set
on the `tp1_sent` id-set). -/
def should_send_tp1 (tr : TradeTracker) (trade_id : String) : Bool × TradeTracker :=
  if trade_id ∈ tr.tp1_sent then (false, tr)
  else (true, { tr with tp1_sent := trade_id :: tr.tp1_sent })

/-- `TradeTracker.should_send_tp2`. -/
def should_send_tp2 (tr : TradeTracker) (trade_id : String) : Bool × TradeTracker :=
  if trade_id ∈ tr.tp2_sent then (false, tr)
  else (true, { tr with tp2_sent := trade_id :: tr.tp2_sent })

/-- `TradeTracker.should_send_tp3`. -/
def should_send_tp3 (tr : TradeTracker) (trade_id : String) : Bool × TradeTracker :=
  if trade_id ∈ tr.tp3_sent then (false, tr)
  else (true, { tr with tp3_sent := trade_id :: tr.tp3_sent })

/-- `TradeTracker.should_send_sl`. -/
def should_send_sl (tr : TradeTracker) (trade_id : String) : Bool × TradeTracker :=
  if trade_id ∈ tr.sl_sent then (false, tr)
  else (true, { tr with sl_sent := trade_id :: tr.sl_sent })

/-- `TradeTracker.close_trade`: pop the trade from `active_trades` and append
its object to `closed_trades`. -/
def close_trade (tr : TradeTracker) (trade_id : String) : TradeTracker :=
  match tr.active_trades trade_id with
  | none => tr
  | some ref =>
      { tr with
        active_trades := fun k => if k = trade_id then none else tr.active_trades k
        closed_trades := tr.closed_trades ++ [ref] }

/-- `TradeTracker.update_trade_tp`: mutate the active trade object for a TP
level (guarded by the per-trade `*_notified` flags); the TP3 branch also
closes the trade. The `price` argument is only logged by the source. -/
def update_trade_tp (tr : TradeTracker) (trade_id level : String) (_price : ℚ) :
    TradeTracker :=
  match tr.active_trades trade_id with
  | none => tr
  | some ref =>
      let t := tr.heap ref
      if level = "TP1" ∧ t.tp1_notified = false then
        { tr with heap := fun r => if r = ref then
            { t with tp1_hit := true, tp1_notified := true, profit_r := 3/2 }
          else tr.heap r }
      else if level = "TP2" ∧ t.tp2_notified = false then
        { tr with heap := fun r => if r = ref then
            { t with tp2_hit := true, tp2_notified := true, profit_r := 5/2 }
          else tr.heap r }
      else if level = "TP3" ∧ t.tp3_notified = false then
        close_trade
          { tr with heap := fun r => if r = ref then
              { t with tp3_hit := true, tp3_notified := true,
                       final_result := "TP3", profit_r := 4, closed := true }
            else tr.heap r }
          trade_id
      else tr

/-- `TradeTracker.update_trade_sl`: mutate the active trade object when the
stop loss is hit (guarded by `sl_notified`), then close the trade. -/
def update_trade_sl (tr : TradeTracker) (trade_id : String) (_price : ℚ) :
    TradeTracker :=
  match tr.active_trades trade_id with
  | none => tr
  | some ref =>
      let t := tr.heap ref
      if t.sl_notified = false then
        close_trade
          { tr with heap := fun r => if r = ref then
              { t with sl_hit := true, sl_notified := true,
                       final_result := "SL", profit_r := -1, closed := true }
            else tr.heap r }
          trade_id
      else tr

/-- Per-symbol entry of the weekly stats (`by_symbol` sub-dict). -/
structure SymStats where
  wins : Nat
  losses : Nat
  total_r : ℚ
  deriving DecidableEq

/-- Full statistics record (the dict returned when the window has at least
one closed trade). -/
structure FullStats where
  total_signals : Nat
  closed_trades : Nat
  active_trades : Nat
  tp3_count : Nat
  tp2_count : Nat
  tp1_count : Nat
  sl_count : Nat
  wins : Nat
  losses : Nat
  win_rate : ℚ
  total_r : ℚ
  avg_r : ℚ
  deriving DecidableEq

/-- The two non-`None` shapes returned by `get_daily_stats`. -/
inductive DailyStats where
  | onlyCounts (total_signals closed_trades active_trades : Nat)
  | full (s : FullStats)
  deriving DecidableEq

/-- The two non-`None` shapes returned by `get_weekly_stats`
(the full shape additionally carries `by_symbol`). -/
inductive WeeklyStats where
  | onlyCounts (total_signals closed_trades active_trades : Nat)
  | full (s : FullStats) (by_symbol : List (String × SymStats))
  deriving DecidableEq

/-- The closed trades of the daily window (`[t for t in daily_trades if t.closed]`). -/
def closedDaily (tr : TradeTracker) : List Nat :=
  tr.daily_trades.filter (fun r => (tr.heap r).closed)

/-- The closed trades of the weekly window. -/
def closedWeekly (tr : TradeTracker) : List Nat :=
  tr.weekly_trades.filter (fun r => (tr.heap r).closed)

/-- Core of both stats functions: the counts/ratios over a window. -/
def fullStatsOf (heap : Nat → Trade) (total : Nat) (closed : List Nat) : FullStats :=
  let tp3 := (closed.filter (fun r => (heap r).final_result = "TP3")).length
  let tp2 := (closed.filter (fun r => (heap r).final_result = "TP2")).length
  let tp1 := (closed.filter (fun r => (heap r).final_result = "TP1")).length
  let sl := (closed.filter (fun r => (heap r).final_result = "SL")).length
  let wins := tp3 + tp2 + tp1
  let win_rate : ℚ := (wins : ℚ) / (closed.length : ℚ) * 100
  let total_r : ℚ := (closed.map (fun r => (heap r).profit_r)).sum
  let avg_r : ℚ := total_r / (closed.length : ℚ)
  { total_signals := total
    closed_trades := closed.length
    active_trades := total - closed.length
    tp3_count := tp3
    tp2_count := tp2
    tp1_count := tp1
    sl_count := sl
    wins := wins
    losses := sl
    win_rate := win_rate
    total_r := total_r
    avg_r := avg_r }

/-- `TradeTracker.get_daily_stats`. -/
def get_daily_stats (tr : TradeTracker) : Option DailyStats :=
  if tr.daily_trades = [] then none
  else
    let total := tr.daily_trades.length
    let closed := closedDaily tr
    if closed = [] then some (.onlyCounts total 0 total)
    else some (.full (fullStatsOf tr.heap total closed))

/-- Fold building the weekly `by_symbol` dict: ensure the symbol's entry
exists, then bump wins/losses and accumulate `total_r` (dict in insertion
order, updated in place). -/
def updateSym (m : List (String × SymStats)) (sym : String) (isWin : Bool) (pr : ℚ) :
    List (String × SymStats) :=
  match m with
  | [] => [(sym, ⟨if isWin then 1 else 0, if isWin then 0 else 1, pr⟩)]
  | (s, v) :: rest =>
      if s = sym then
        (s, ⟨v.wins + (if isWin then 1 else 0),
             v.losses + (if isWin then 0 else 1),
             v.total_r + pr⟩) :: rest
      else (s, v) :: updateSym rest sym isWin pr

/-- The `by_symbol` breakdown of `get_weekly_stats`. -/
def bySymbolOf (heap : Nat → Trade) (closed : List Nat) : List (String × SymStats) :=
  closed.foldl
    (fun m r =>
      let t := heap r
      updateSym m t.symbol
        (t.final_result ∈ ["TP1", "TP2", "TP3"] : Bool) t.profit_r)
    []

/-- `TradeTracker.get_weekly_stats`. -/
def get_weekly_stats (tr : TradeTracker) : Option WeeklyStats :=
  if tr.weekly_trades = [] then none
  else
    let total := tr.weekly_trades.length
    let closed := closedWeekly tr
    if closed = [] then some (.onlyCounts total 0 total)
    else some (.full (fullStatsOf tr.heap total closed) (bySymbolOf tr.heap closed))

/-- `TradeTracker.reset_daily`: clears only the daily window. -/
def reset_daily (tr : TradeTracker) : TradeTracker :=
  { tr with daily_trades := [] }

/-- `TradeTracker.reset_weekly`: clears the weekly window and the four
per-level id-sets. -/
def reset_weekly (tr : TradeTracker) : TradeTracker :=
  { tr with weekly_trades := [], tp1_sent := [], tp2_sent := [], tp3_sent := [], sl_sent := [] }

/-- Outcome of one delivery attempt, as seen by `send_message`:
HTTP 200, HTTP 429 carrying an optional `Retry-After` header, or a generic
failure (non-200 status, timeout, connection error, other exception — all of
which share the same control flow in the source). -/
inductive AttemptOutcome where
  | ok
  | rate (retryAfterHeader : Option Nat)
  | fail
  deriving DecidableEq

/-- Observable trace of one `send_message` call: the returned boolean, the
sequence of `time.sleep` durations (seconds), and the number of delivery
attempts performed. -/
structure SendTrace where
  result : Bool
  sleeps : List Nat
  attempts : Nat
  deriving DecidableEq

/-- The `for attempt in range(max_retries)` loop of
`TelegramNotifier.send_message`, with `remaining = max_retries - attempt`
attempts left and `outcomes i` the network outcome of attempt `i`.
On 200 it returns `True`; on 429 it sleeps `Retry-After` (default 2) and
continues (even on the last attempt, after which the loop exits and the
function returns `False`); on a generic failure it sleeps a fixed 2 seconds
and continues, except on the last attempt where it returns `False` at once. -/
def sendLoop (outcomes : Nat → AttemptOutcome) (attempt : Nat) :
    (remaining : Nat) → SendTrace
  | 0 => ⟨false, [], 0⟩
  | r + 1 =>
    match outcomes attempt with
    | .ok => ⟨true, [], 1⟩
    | .rate h =>
        let t := sendLoop outcomes (attempt + 1) r
        ⟨t.result, h.getD 2 :: t.sleeps, t.attempts + 1⟩
    | .fail =>
        if r = 0 then ⟨false, [], 1⟩
        else
          let t := sendLoop outcomes (attempt + 1) r
          ⟨t.result, 2 :: t.sleeps, t.attempts + 1⟩

/-- `TelegramNotifier.send_message` with `max_retries` attempts. -/
def send_message (outcomes : Nat → AttemptOutcome) (max_retries : Nat) : SendTrace :=
  sendLoop outcomes 0 max_retries

/-- An entry of the `failed_messages` backlog
(`{'text': ..., 'type': ..., 'data': ...}`). -/
structure FailedMsg where
  text : String
  etype : String
  deriving DecidableEq

/-- Loop body of `retry_failed_messages`: walk the snapshot, re-appending to
the (cleared) backlog every entry whose `send_message` call fails; `oks i` is
the outcome of the send for the `i`-th snapshot entry. -/
def flushLoop (oks : Nat → Bool) : List FailedMsg → Nat → List FailedMsg → List FailedMsg
  | [], _, acc => acc
  | m :: rest, i, acc =>
      if oks i then flushLoop oks rest (i + 1) acc
      else flushLoop oks rest (i + 1) (acc ++ [m])

/-- `TelegramNotifier.retry_failed_messages`: early-return on an empty
backlog; otherwise snapshot (`copy`), clear, and resend each entry,
re-queueing the ones that still fail. Returns the new backlog. -/
def retry_failed_messages (oks : Nat → Bool) (failed : List FailedMsg) : List FailedMsg :=
  if failed = [] then failed
  else flushLoop oks failed 0 []

/-- Parsed webhook payload. Each field's default is the corresponding
`data.get(key, default)` default used by the source, so an absent key is
represented by its default value. -/
structure EventData where
  event : String := "UNKNOWN"
  id : String := "unknown"
  level : String := "UNKNOWN"
  price : ℚ := 0
  symbol : String := "UNKNOWN"
  direction : String := "UNKNOWN"
  signal_type : String := "UNKNOWN"
  pattern : String := "UNKNOWN"
  entry : ℚ := 0
  stop_loss : ℚ := 0
  tp1 : ℚ := 0
  tp2 : ℚ := 0
  tp3 : ℚ := 0
  score : Int := 0
  mode : String := "UNKNOWN"
  session : String := "UNKNOWN"
  timeframe : String := "UNKNOWN"
  bubble_strength : Int := 0
  exhaustion_detected : Bool := false
  htf_trend : String := "UNKNOWN"
  strict_mode : Bool := false
  quantum_mode : Bool := true
  zero_lag : Bool := true
  deriving DecidableEq

/-- The `Trade` constructed by `TradingBot.handle_new_trade` from a payload
(`datetime.now()` abstracted by the constant `"now"`; the state and
notification fields take their dataclass defaults). -/
def mkTrade (d : EventData) : Trade :=
  { id := d.id, symbol := d.symbol, direction := d.direction,
    signal_type := d.signal_type, pattern := d.pattern, entry := d.entry,
    stop_loss := d.stop_loss, tp1 := d.tp1, tp2 := d.tp2, tp3 := d.tp3,
    score := d.score, mode := d.mode, session := d.session,
    timeframe := d.timeframe, bubble_strength := d.bubble_strength,
    exhaustion_detected := d.exhaustion_detected, htf_trend := d.htf_trend,
    strict_mode := d.strict_mode, quantum_mode := d.quantum_mode,
    zero_lag := d.zero_lag, timestamp := "now" }

/-- One message handed to the Telegram notifier for delivery, identified by
its event kind and the payload it was built from (the rendered HTML body is
presentation-only and not modelled). -/
structure Dispatched where
  kind : String
  data : EventData
  deriving DecidableEq

/-- State of the whole `TradingBot`: the tracker, whether a Telegram notifier
is configured, the list of messages handed to the notifier so far, and the
notifier's `failed_messages` backlog. -/
structure BotState where
  tracker : TradeTracker
  telegramEnabled : Bool
  sent : List Dispatched
  failed : List FailedMsg

/-- Fresh bot state (`TradingBot.__init__`). -/
def initBot (telegramEnabled : Bool) : BotState :=
  { tracker := initTracker, telegramEnabled := telegramEnabled, sent := [], failed := [] }

/-- Effect of `TelegramNotifier.send_tp_hit` / `send_sl_hit` /
`send_new_trade_signal` followed by the caller's failure-queueing: the message
is handed off (recorded in `sent`), and when the send fails it is appended to
`failed_messages`; the send outcome is returned. `sendOk` abstracts the
boolean result of the inner `send_message` call. -/
def notifierDispatch (st : BotState) (kind : String) (d : EventData) (sendOk : Bool) :
    BotState × Bool :=
  ({ st with
      sent := st.sent ++ [⟨kind, d⟩]
      failed := if sendOk then st.failed else st.failed ++ [⟨kind, kind⟩] }, sendOk)

/-- Shared tail of the level handlers: commit the tracker mutation, then
notify if a Telegram notifier is configured, returning its outcome
(`True` when no notifier is configured). -/
def handleDispatch (st : BotState) (tr2 : TradeTracker) (kind : String) (d : EventData)
    (sendOk : Bool) : BotState × Bool :=
  let st2 := { st with tracker := tr2 }
  if st2.telegramEnabled then notifierDispatch st2 kind d sendOk
  else (st2, true)

/-- `TradingBot.handle_new_trade`. -/
def handle_new_trade (st : BotState) (d : EventData) (sendOk : Bool) : BotState × Bool :=
  handleDispatch st (add_trade st.tracker (mkTrade d)) "NEW_TRADE" d sendOk

/-- `TradingBot.handle_tp_hit`: consult the per-level gate (which mutates the
id-set even when the event is then dropped as a duplicate — dropping returns
`True`); on an unknown level log and return `False`; otherwise update the
trade and send the notification. -/
def handle_tp_hit (st : BotState) (d : EventData) (sendOk : Bool) : BotState × Bool :=
  if d.level = "TP1" then
    let g := should_send_tp1 st.tracker d.id
    if g.1 = false then ({ st with tracker := g.2 }, true)
    else handleDispatch st (update_trade_tp g.2 d.id d.level d.price) "TP1_HIT" d sendOk
  else if d.level = "TP2" then
    let g := should_send_tp2 st.tracker d.id
    if g.1 = false then ({ st with tracker := g.2 }, true)
    else handleDispatch st (update_trade_tp g.2 d.id d.level d.price) "TP2_HIT" d sendOk
  else if d.level = "TP3" then
    let g := should_send_tp3 st.tracker d.id
    if g.1 = false then ({ st with tracker := g.2 }, true)
    else handleDispatch st (update_trade_tp g.2 d.id d.level d.price) "TP3_HIT" d sendOk
  else (st, false)

/-- `TradingBot.handle_sl_hit`. -/
def handle_sl_hit (st : BotState) (d : EventData) (sendOk : Bool) : BotState × Bool :=
  let g := should_send_sl st.tracker d.id
  if g.1 = false then ({ st with tracker := g.2 }, true)
  else handleDispatch st (update_trade_sl g.2 d.id d.price) "SL_HIT" d sendOk

/-- `TradingBot.process_webhook`: route on the `event` field. -/
def process_webhook (st : BotState) (d : EventData) (sendOk : Bool) : BotState × Bool :=
  if d.event = "NEW_TRADE" then handle_new_trade st d sendOk
  else if d.event = "TP_HIT" then handle_tp_hit st d sendOk
  else if d.event = "SL_HIT" then handle_sl_hit st d sendOk
  else (st, false)

/-- The `/webhook` Flask route: a `none` payload is the unparseable case
(HTTP 400); otherwise the event is processed and the route answers HTTP 200
with body status `"success"` or `"failed"`. Returns
(new state, HTTP status, body status). -/
def webhookRoute (st : BotState) (payload : Option EventData) (sendOk : Bool) :
    BotState × Nat × String :=
  match payload with
  | none => (st, 400, "Invalid JSON")
  | some d =>
      let r := process_webhook st d sendOk
      (r.1, 200, if r.2 then "success" else "failed")

/-- `TradingBot.send_daily_summary` (scheduler job): compute stats, hand the
summary to the notifier when configured (its outcome is discarded and summary
failures are not queued), then always reset the daily window. -/
def daily_summary_job (st : BotState) (_sendOk : Bool) : BotState :=
  let st1 :=
    if st.telegramEnabled then { st with sent := st.sent ++ [⟨"DAILY_SUMMARY", {}⟩] }
    else st
  { st1 with tracker := reset_daily st1.tracker }

/-- `TradingBot.send_weekly_summary` (scheduler job). -/
def weekly_summary_job (st : BotState) (_sendOk : Bool) : BotState :=
  let st1 :=
    if st.telegramEnabled then { st with sent := st.sent ++ [⟨"WEEKLY_SUMMARY", {}⟩] }
    else st
  { st1 with tracker := reset_weekly st1.tracker }

/-- `TradingBot.retry_failed_messages` (scheduler job): flush the backlog
when a notifier is configured. -/
def retry_job (st : BotState) (oks : Nat → Bool) : BotState :=
  if st.telegramEnabled then { st with failed := retry_failed_messages oks st.failed }
  else st

/-- External stimuli of the bot: a webhook request (with the send outcome the
transport would produce for the resulting notification), or one of the three
scheduler jobs. -/
inductive BotEvent where
  | webhook (payload : Option EventData) (sendOk : Bool)
  | dailyJob (sendOk : Bool)
  | weeklyJob (sendOk : Bool)
  | retryJob (oks : Nat → Bool)

/-- One step of the bot. -/
def botStep (st : BotState) (e : BotEvent) : BotState :=
  match e with
  | .webhook p ok => (webhookRoute st p ok).1
  | .dailyJob ok => daily_summary_job st ok
  | .weeklyJob ok => weekly_summary_job st ok
  | .retryJob oks => retry_job st oks

/-- Run the bot over a sequence of stimuli. -/
def botRun (st : BotState) (es : List BotEvent) : BotState :=
  es.foldl botStep st

/-- Characterization of the flush loop: it appends to `acc` exactly the
snapshot entries whose send failed, in order. -/
theorem flushLoop_eq (oks : Nat → Bool) (l : List FailedMsg) :
    ∀ i acc, flushLoop oks l i acc =
      acc ++ ((l.enumFrom i).filter (fun p => !oks p.1)).map Prod.snd := by
  induction l with
  | nil => intro i acc; simp [flushLoop]
  | cons m rest ih =>
      intro i acc
      cases h : oks i with
      | true => simp [flushLoop, h, ih]
      | false => simp [flushLoop, h, ih, List.append_assoc]

/-- Characterization of `retry_failed_messages`: the new backlog is exactly
the list of snapshot entries whose resend failed, in snapshot order. -/
theorem retry_failed_messages_eq (oks : Nat → Bool) (failed : List FailedMsg) :
    retry_failed_messages oks failed =
      ((failed.enum.filter (fun p => !oks p.1)).map Prod.snd) := by
  unfold retry_failed_messages
  by_cases h : failed = []
  · simp [h]
  · simp [h, List.enum, flushLoop_eq]

/-- C7: the backlog flush never drops a message. `retry_failed_messages`
snapshots `failed_messages`, clears the list, resends each snapshot entry,
and re-appends exactly the entries whose send failed (in order); hence every
message whose send fails during the flush is present in the backlog again
after the flush completes. -/
theorem C7_flush_never_drops :
    ∀ (oks : Nat → Bool) (failed : List FailedMsg),
      retry_failed_messages oks failed =
        ((failed.enum.filter (fun p => !oks p.1)).map Prod.snd)
      ∧ ∀ i (h : i < failed.length), oks i = false →
          failed.get ⟨i, h⟩ ∈ retry_failed_messages oks failed := by
  intro oks failed
  refine ⟨retry_failed_messages_eq oks failed, ?_⟩
  intro i h hf
  rw [retry_failed_messages_eq]
  refine List.mem_map.2 ⟨(i, failed.get ⟨i, h⟩), ?_, rfl⟩
  refine List.mem_filter.2 ⟨?_, by simp [hf]⟩
  exact List.mk_mem_enum_iff_getElem?.2 (by simp [List.get_eq_getElem, List.getElem?_eq_getElem h])

/-- Witness for C7 at a concrete input: a one-element backlog whose send
fails reappears after the flush. -/
theorem C7_flush_never_drops_witness :
    (⟨"msg", "SL_HIT"⟩ : FailedMsg) ∈
      retry_failed_messages (fun _ => false) [⟨"msg", "SL_HIT"⟩] :=
  (C7_flush_never_drops (fun _ => false) [⟨"msg", "SL_HIT"⟩]).2 0 (by decide) rfl

/-- The send loop performs at most `remaining` delivery attempts. -/
theorem sendLoop_attempts_le (outcomes : Nat → AttemptOutcome) :
    ∀ r a, (sendLoop outcomes a r).attempts ≤ r := by
  intro r
  induction r with
  | zero => intro a; simp [sendLoop]
  | succ n ih =>
      intro a
      cases h : outcomes a with
      | ok => simp [sendLoop, h]
      | rate hh => simp only [sendLoop, h]; exact Nat.succ_le_succ (ih (a + 1))
      | fail =>
          by_cases hn : n = 0
          · simp [sendLoop, h, hn]
          · simp only [sendLoop, h, if_neg hn]
            exact Nat.succ_le_succ (ih (a + 1))

/-- The send loop returns `true` exactly when one of its (at most
`remaining`) attempts gets HTTP 200. -/
theorem sendLoop_result_iff (outcomes : Nat → AttemptOutcome) :
    ∀ r a, (sendLoop outcomes a r).result = true ↔
      ∃ i, i < r ∧ outcomes (a + i) = .ok := by
  intro r
  induction r with
  | zero => intro a; simp [sendLoop]
  | succ n ih =>
      intro a
      have shift : (∃ i, i < n + 1 ∧ outcomes (a + i) = .ok) ↔
          outcomes a = .ok ∨ ∃ j, j < n ∧ outcomes (a + 1 + j) = .ok := by
        constructor
        · rintro ⟨i, hi, hok⟩
          cases i with
          | zero => exact Or.inl (by simpa using hok)
          | succ j =>
              refine Or.inr ⟨j, by omega, ?_⟩
              have : a + 1 + j = a + (j + 1) := by omega
              rw [this]; exact hok
        · rintro (h | ⟨j, hj, hok⟩)
          · exact ⟨0, by omega, by simpa using h⟩
          · refine ⟨j + 1, by omega, ?_⟩
            have : a + (j + 1) = a + 1 + j := by omega
            rw [this]; exact hok
      rw [shift]
      cases h : outcomes a with
      | ok => simp [sendLoop, h]
      | rate hh =>
          simp only [sendLoop, h]
          rw [ih (a + 1)]
          simp [h]
      | fail =>
          by_cases hn : n = 0
          · subst hn; simp [sendLoop, h]
          · simp only [sendLoop, h, if_neg hn]
            rw [ih (a + 1)]
            simp [h]

/-- C8: retry policy of `send_message`. It performs at most `max_retries`
delivery attempts; it returns `true` exactly when some attempt within the
bound receives HTTP 200 (so it returns `false` once the attempts are
exhausted without a 200); on HTTP 429 it sleeps the `Retry-After` duration
(default 2 seconds) and retries with no additional fixed backoff; on a
generic failure it sleeps the fixed 2 seconds before retrying, except on the
final attempt where it gives up at once. -/
theorem C8_send_retry_policy :
    ∀ (outcomes : Nat → AttemptOutcome) (mr : Nat),
      (send_message outcomes mr).attempts ≤ mr
      ∧ ((send_message outcomes mr).result = true ↔ ∃ i, i < mr ∧ outcomes i = .ok)
      ∧ ((∀ i, i < mr → outcomes i ≠ .ok) → (send_message outcomes mr).result = false)
      ∧ (∀ a r h, outcomes a = .rate h →
          sendLoop outcomes a (r + 1) =
            ⟨(sendLoop outcomes (a + 1) r).result,
             h.getD 2 :: (sendLoop outcomes (a + 1) r).sleeps,
             (sendLoop outcomes (a + 1) r).attempts + 1⟩)
      ∧ (∀ a r, outcomes a = .fail → 0 < r →
          sendLoop outcomes a (r + 1) =
            ⟨(sendLoop outcomes (a + 1) r).result,
             2 :: (sendLoop outcomes (a + 1) r).sleeps,
             (sendLoop outcomes (a + 1) r).attempts + 1⟩)
      ∧ (∀ a, outcomes a = .fail → sendLoop outcomes a 1 = ⟨false, [], 1⟩)
      ∧ (∀ a r, outcomes a = .ok → sendLoop outcomes a (r + 1) = ⟨true, [], 1⟩) := by
  intro outcomes mr
  refine ⟨sendLoop_attempts_le outcomes mr 0, ?_, ?_, ?_, ?_, ?_, ?_⟩
  · rw [send_message, sendLoop_result_iff]
    simp
  · intro hno
    rw [send_message]
    by_contra hres
    have : (sendLoop outcomes 0 mr).result = true := by
      cases hb : (sendLoop outcomes 0 mr).result
      · exact absurd hb hres
      · rfl
    obtain ⟨i, hi, hok⟩ := (sendLoop_result_iff outcomes mr 0).1 this
    exact hno i (by simpa using hi) (by simpa using hok)
  · intro a r h hout; simp [sendLoop, hout]
  · intro a r hout hr; simp [sendLoop, hout, Nat.pos_iff_ne_zero.1 hr]
  · intro a hout; simp [sendLoop, hout]
  · intro a r hout; simp [sendLoop, hout]

/-- Witness for C8 at a concrete input: with outcomes 429 (`Retry-After: 5`),
generic failure, generic failure and 3 attempts, the call sleeps 5 then 2
seconds, uses all 3 attempts, and returns `false`. -/
theorem C8_send_retry_policy_witness :
    (send_message (fun i => if i = 0 then .rate (some 5) else .fail) 3).attempts ≤ 3
    ∧ (send_message (fun i => if i = 0 then .rate (some 5) else .fail) 3).result = false
    ∧ sendLoop (fun i => if i = 0 then .rate (some 5) else .fail) 0 3 =
        ⟨(sendLoop (fun i => if i = 0 then .rate (some 5) else .fail) 1 2).result,
         (some 5).getD 2 :: (sendLoop (fun i => if i = 0 then .rate (some 5) else .fail) 1 2).sleeps,
         (sendLoop (fun i => if i = 0 then .rate (some 5) else .fail) 1 2).attempts + 1⟩
    ∧ sendLoop (fun i => if i = 0 then .rate (some 5) else .fail) 1 2 =
        ⟨(sendLoop (fun i => if i = 0 then .rate (some 5) else .fail) 2 1).result,
         2 :: (sendLoop (fun i => if i = 0 then .rate (some 5) else .fail) 2 1).sleeps,
         (sendLoop (fun i => if i = 0 then .rate (some 5) else .fail) 2 1).attempts + 1⟩
    ∧ sendLoop (fun i => if i = 0 then .rate (some 5) else .fail) 2 1 = ⟨false, [], 1⟩ :=
  ⟨(C8_send_retry_policy (fun i => if i = 0 then .rate (some 5) else .fail) 3).1,
   (C8_send_retry_policy (fun i => if i = 0 then .rate (some 5) else .fail) 3).2.2.1
     (by decide),
   (C8_send_retry_policy (fun i => if i = 0 then .rate (some 5) else .fail) 3).2.2.2.1
     0 2 (some 5) rfl,
   (C8_send_retry_policy (fun i => if i = 0 then .rate (some 5) else .fail) 3).2.2.2.2.1
     1 1 rfl (by decide),
   (C8_send_retry_policy (fun i => if i = 0 then .rate (some 5) else .fail) 3).2.2.2.2.2.1
     2 rfl⟩

@[simp]
theorem close_trade_heap (tr : TradeTracker) (i : String) : (close_trade tr i).heap = tr.heap := by
  unfold close_trade; cases tr.active_trades i <;> rfl

@[simp]
theorem close_trade_nextRef (tr : TradeTracker) (i : String) : (close_trade tr i).nextRef = tr.nextRef := by
  unfold close_trade; cases tr.active_trades i <;> rfl

@[simp]
theorem close_trade_daily (tr : TradeTracker) (i : String) : (close_trade tr i).daily_trades = tr.daily_trades := by
  unfold close_trade; cases tr.active_trades i <;> rfl

@[simp]
theorem close_trade_weekly (tr : TradeTracker) (i : String) : (close_trade tr i).weekly_trades = tr.weekly_trades := by
  unfold close_trade; cases tr.active_trades i <;> rfl

@[simp]
theorem close_trade_tp1_sent (tr : TradeTracker) (i : String) : (close_trade tr i).tp1_sent = tr.tp1_sent := by
  unfold close_trade; cases tr.active_trades i <;> rfl

@[simp]
theorem close_trade_tp2_sent (tr : TradeTracker) (i : String) : (close_trade tr i).tp2_sent = tr.tp2_sent := by
  unfold close_trade; cases tr.active_trades i <;> rfl

@[simp]
theorem close_trade_tp3_sent (tr : TradeTracker) (i : String) : (close_trade tr i).tp3_sent = tr.tp3_sent := by
  unfold close_trade; cases tr.active_trades i <;> rfl

@[simp]
theorem close_trade_sl_sent (tr : TradeTracker) (i : String) : (close_trade tr i).sl_sent = tr.sl_sent := by
  unfold close_trade; cases tr.active_trades i <;> rfl

@[simp]
theorem update_tp_nextRef (tr : TradeTracker) (i l : String) (p : ℚ) : (update_trade_tp tr i l p).nextRef = tr.nextRef := by
  unfold update_trade_tp; cases tr.active_trades i
  · rfl
  · dsimp only; split_ifs <;> simp

@[simp]
theorem update_tp_daily (tr : TradeTracker) (i l : String) (p : ℚ) : (update_trade_tp tr i l p).daily_trades = tr.daily_trades := by
  unfold update_trade_tp; cases tr.active_trades i
  · rfl
  · dsimp only; split_ifs <;> simp

@[simp]
theorem update_tp_weekly (tr : TradeTracker) (i l : String) (p : ℚ) : (update_trade_tp tr i l p).weekly_trades = tr.weekly_trades := by
  unfold update_trade_tp; cases tr.active_trades i
  · rfl
  · dsimp only; split_ifs <;> simp

@[simp]
theorem update_tp_tp1_sent (tr : TradeTracker) (i l : String) (p : ℚ) : (update_trade_tp tr i l p).tp1_sent = tr.tp1_sent := by
  unfold update_trade_tp; cases tr.active_trades i
  · rfl
  · dsimp only; split_ifs <;> simp

@[simp]
theorem update_tp_tp2_sent (tr : TradeTracker) (i l : String) (p : ℚ) : (update_trade_tp tr i l p).tp2_sent = tr.tp2_sent := by
  unfold update_trade_tp; cases tr.active_trades i
  · rfl
  · dsimp only; split_ifs <;> simp

@[simp]
theorem update_tp_tp3_sent (tr : TradeTracker) (i l : String) (p : ℚ) : (update_trade_tp tr i l p).tp3_sent = tr.tp3_sent := by
  unfold update_trade_tp; cases tr.active_trades i
  · rfl
  · dsimp only; split_ifs <;> simp

@[simp]
theorem update_tp_sl_sent (tr : TradeTracker) (i l : String) (p : ℚ) : (update_trade_tp tr i l p).sl_sent = tr.sl_sent := by
  unfold update_trade_tp; cases tr.active_trades i
  · rfl
  · dsimp only; split_ifs <;> simp

@[simp]
theorem update_sl_nextRef (tr : TradeTracker) (i : String) (p : ℚ) : (update_trade_sl tr i p).nextRef = tr.nextRef := by
  unfold update_trade_sl; cases tr.active_trades i
  · rfl
  · dsimp only; split_ifs <;> simp

@[simp]
theorem update_sl_daily (tr : TradeTracker) (i : String) (p : ℚ) : (update_trade_sl tr i p).daily_trades = tr.daily_trades := by
  unfold update_trade_sl; cases tr.active_trades i
  · rfl
  · dsimp only; split_ifs <;> simp

@[simp]
theorem update_sl_weekly (tr : TradeTracker) (i : String) (p : ℚ) : (update_trade_sl tr i p).weekly_trades = tr.weekly_trades := by
  unfold update_trade_sl; cases tr.active_trades i
  · rfl
  · dsimp only; split_ifs <;> simp

@[simp]
theorem update_sl_tp1_sent (tr : TradeTracker) (i : String) (p : ℚ) : (update_trade_sl tr i p).tp1_sent = tr.tp1_sent := by
  unfold update_trade_sl; cases tr.active_trades i
  · rfl
  · dsimp only; split_ifs <;> simp

@[simp]
theorem update_sl_tp2_sent (tr : TradeTracker) (i : String) (p : ℚ) : (update_trade_sl tr i p).tp2_sent = tr.tp2_sent := by
  unfold update_trade_sl; cases tr.active_trades i
  · rfl
  · dsimp only; split_ifs <;> simp

@[simp]
theorem update_sl_tp3_sent (tr : TradeTracker) (i : String) (p : ℚ) : (update_trade_sl tr i p).tp3_sent = tr.tp3_sent := by
  unfold update_trade_sl; cases tr.active_trades i
  · rfl
  · dsimp only; split_ifs <;> simp

@[simp]
theorem update_sl_sl_sent (tr : TradeTracker) (i : String) (p : ℚ) : (update_trade_sl tr i p).sl_sent = tr.sl_sent := by
  unfold update_trade_sl; cases tr.active_trades i
  · rfl
  · dsimp only; split_ifs <;> simp

/-- Scenario payload: `NEW_TRADE{id:"X1"}`. -/
def dNewX1 : EventData := { event := "NEW_TRADE", id := "X1", symbol := "XAUUSD" }

/-- Scenario payload: `TP_HIT{id:"X1", level:"TP1"}`. -/
def dTp1X1 : EventData := { event := "TP_HIT", id := "X1", level := "TP1", price := 1 }

/-- C2, corrected: `reset_weekly` clears the weekly rolling window and the
four global per-level id-sets — so each `should_send_*` gate answers `true`
again for every id — but it leaves the heap (hence every per-trade
`*_notified` flag), `active_trades`, `closed_trades` and the daily window
untouched. -/
theorem C2_reset_weekly_clears_only_idsets :
    ∀ tr : TradeTracker,
      reset_weekly tr =
        { tr with weekly_trades := [], tp1_sent := [], tp2_sent := [],
                  tp3_sent := [], sl_sent := [] }
      ∧ (reset_weekly tr).heap = tr.heap
      ∧ (reset_weekly tr).active_trades = tr.active_trades
      ∧ (reset_weekly tr).closed_trades = tr.closed_trades
      ∧ (reset_weekly tr).daily_trades = tr.daily_trades
      ∧ (∀ id, (should_send_tp1 (reset_weekly tr) id).1 = true)
      ∧ (∀ id, (should_send_tp2 (reset_weekly tr) id).1 = true)
      ∧ (∀ id, (should_send_tp3 (reset_weekly tr) id).1 = true)
      ∧ (∀ id, (should_send_sl (reset_weekly tr) id).1 = true) := by
  intro tr
  refine ⟨rfl, rfl, rfl, rfl, rfl, ?_, ?_, ?_, ?_⟩ <;>
    intro id <;> simp [reset_weekly, should_send_tp1, should_send_tp2, should_send_tp3, should_send_sl]

/-- Counterexample to C2 as stated: after `NEW_TRADE X1`, `TP_HIT TP1 X1` and
the weekly reset, the global `tp1_sent` id-set is cleared but the trade's
`tp1_notified` flag is *not* cleared — refuting the claim that the weekly
reset clears both the global id-sets and the per-trade levelNotified flags. -/
theorem C2_counterexample :
    (botRun (initBot true)
        [.webhook (some dNewX1) true, .webhook (some dTp1X1) true, .weeklyJob true]).tracker.tp1_sent = []
    ∧ ¬ ((botRun (initBot true)
        [.webhook (some dNewX1) true, .webhook (some dTp1X1) true, .weeklyJob true]).tracker.heap 0).tp1_notified = false := by
  decide

/-- Uniform view of the four idempotency gates, indexed by level name. -/
def gateCall (lvl : String) (tr : TradeTracker) (trade_id : String) : Bool × TradeTracker :=
  if lvl = "TP1" then should_send_tp1 tr trade_id
  else if lvl = "TP2" then should_send_tp2 tr trade_id
  else if lvl = "TP3" then should_send_tp3 tr trade_id
  else should_send_sl tr trade_id

/-- Uniform view of the four per-level id-sets, indexed by level name. -/
def gateSent (lvl : String) (tr : TradeTracker) : List String :=
  if lvl = "TP1" then tr.tp1_sent
  else if lvl = "TP2" then tr.tp2_sent
  else if lvl = "TP3" then tr.tp3_sent
  else tr.sl_sent

/-- The stimulus that performs the weekly reset. -/
def isWeeklyJob (e : BotEvent) : Prop := ∃ ok, e = .weeklyJob ok

@[simp]
theorem ss_tp1_tp2 (tr : TradeTracker) (j : String) : (should_send_tp1 tr j).2.tp2_sent = tr.tp2_sent := by
  unfold should_send_tp1; split_ifs <;> rfl

@[simp]
theorem ss_tp1_tp3 (tr : TradeTracker) (j : String) : (should_send_tp1 tr j).2.tp3_sent = tr.tp3_sent := by
  unfold should_send_tp1; split_ifs <;> rfl

@[simp]
theorem ss_tp1_sl (tr : TradeTracker) (j : String) : (should_send_tp1 tr j).2.sl_sent = tr.sl_sent := by
  unfold should_send_tp1; split_ifs <;> rfl

@[simp]
theorem ss_tp2_tp1 (tr : TradeTracker) (j : String) : (should_send_tp2 tr j).2.tp1_sent = tr.tp1_sent := by
  unfold should_send_tp2; split_ifs <;> rfl

@[simp]
theorem ss_tp2_tp3 (tr : TradeTracker) (j : String) : (should_send_tp2 tr j).2.tp3_sent = tr.tp3_sent := by
  unfold should_send_tp2; split_ifs <;> rfl

@[simp]
theorem ss_tp2_sl (tr : TradeTracker) (j : String) : (should_send_tp2 tr j).2.sl_sent = tr.sl_sent := by
  unfold should_send_tp2; split_ifs <;> rfl

@[simp]
theorem ss_tp3_tp1 (tr : TradeTracker) (j : String) : (should_send_tp3 tr j).2.tp1_sent = tr.tp1_sent := by
  unfold should_send_tp3; split_ifs <;> rfl

@[simp]
theorem ss_tp3_tp2 (tr : TradeTracker) (j : String) : (should_send_tp3 tr j).2.tp2_sent = tr.tp2_sent := by
  unfold should_send_tp3; split_ifs <;> rfl

@[simp]
theorem ss_tp3_sl (tr : TradeTracker) (j : String) : (should_send_tp3 tr j).2.sl_sent = tr.sl_sent := by
  unfold should_send_tp3; split_ifs <;> rfl

@[simp]
theorem ss_sl_tp1 (tr : TradeTracker) (j : String) : (should_send_sl tr j).2.tp1_sent = tr.tp1_sent := by
  unfold should_send_sl; split_ifs <;> rfl

@[simp]
theorem ss_sl_tp2 (tr : TradeTracker) (j : String) : (should_send_sl tr j).2.tp2_sent = tr.tp2_sent := by
  unfold should_send_sl; split_ifs <;> rfl

@[simp]
theorem ss_sl_tp3 (tr : TradeTracker) (j : String) : (should_send_sl tr j).2.tp3_sent = tr.tp3_sent := by
  unfold should_send_sl; split_ifs <;> rfl

theorem ss_tp1_superset (tr : TradeTracker) (j id : String) :
    id ∈ tr.tp1_sent → id ∈ (should_send_tp1 tr j).2.tp1_sent := by
  unfold should_send_tp1; split_ifs <;> intro h <;> simp [h]

theorem ss_tp2_superset (tr : TradeTracker) (j id : String) :
    id ∈ tr.tp2_sent → id ∈ (should_send_tp2 tr j).2.tp2_sent := by
  unfold should_send_tp2; split_ifs <;> intro h <;> simp [h]

theorem ss_tp3_superset (tr : TradeTracker) (j id : String) :
    id ∈ tr.tp3_sent → id ∈ (should_send_tp3 tr j).2.tp3_sent := by
  unfold should_send_tp3; split_ifs <;> intro h <;> simp [h]

theorem ss_sl_superset (tr : TradeTracker) (j id : String) :
    id ∈ tr.sl_sent → id ∈ (should_send_sl tr j).2.sl_sent := by
  unfold should_send_sl; split_ifs <;> intro h <;> simp [h]

@[simp]
theorem handleDispatch_tracker (st : BotState) (tr2 : TradeTracker) (k : String)
    (d : EventData) (ok : Bool) : (handleDispatch st tr2 k d ok).1.tracker = tr2 := by
  simp only [handleDispatch, notifierDispatch]; split_ifs <;> rfl

@[simp]
theorem add_trade_tp1_sent (tr : TradeTracker) (t : Trade) : (add_trade tr t).tp1_sent = tr.tp1_sent := rfl

@[simp]
theorem add_trade_tp2_sent (tr : TradeTracker) (t : Trade) : (add_trade tr t).tp2_sent = tr.tp2_sent := rfl

@[simp]
theorem add_trade_tp3_sent (tr : TradeTracker) (t : Trade) : (add_trade tr t).tp3_sent = tr.tp3_sent := rfl

@[simp]
theorem add_trade_sl_sent (tr : TradeTracker) (t : Trade) : (add_trade tr t).sl_sent = tr.sl_sent := rfl

/-- On every step other than the weekly reset, the four per-level id-sets
only grow: a recorded (tradeId, level) pair stays recorded. -/
theorem step_sent_mono (st : BotState) (e : BotEvent) (hne : ¬ isWeeklyJob e) :
    (∀ id, id ∈ st.tracker.tp1_sent → id ∈ (botStep st e).tracker.tp1_sent)
    ∧ (∀ id, id ∈ st.tracker.tp2_sent → id ∈ (botStep st e).tracker.tp2_sent)
    ∧ (∀ id, id ∈ st.tracker.tp3_sent → id ∈ (botStep st e).tracker.tp3_sent)
    ∧ (∀ id, id ∈ st.tracker.sl_sent → id ∈ (botStep st e).tracker.sl_sent) := by
  cases e with
  | weeklyJob ok => exact absurd ⟨ok, rfl⟩ hne
  | retryJob oks =>
      refine ⟨?_, ?_, ?_, ?_⟩ <;> intro id h <;>
        (simp only [botStep, retry_job]; split <;> exact h)
  | dailyJob ok =>
      refine ⟨?_, ?_, ?_, ?_⟩ <;> intro id h <;>
        (simp only [botStep, daily_summary_job, reset_daily]; split <;> exact h)
  | webhook p ok =>
      cases p with
      | none => exact ⟨fun _ h => h, fun _ h => h, fun _ h => h, fun _ h => h⟩
      | some d =>
          refine ⟨?_, ?_, ?_, ?_⟩ <;> intro id h <;>
            (simp only [botStep, webhookRoute, process_webhook, handle_new_trade,
               handle_tp_hit, handle_sl_hit]
             split_ifs <;>
               (simp only [handleDispatch_tracker, add_trade_tp1_sent, add_trade_tp2_sent,
                  add_trade_tp3_sent, add_trade_sl_sent, update_tp_tp1_sent, update_tp_tp2_sent,
                  update_tp_tp3_sent, update_tp_sl_sent, update_sl_tp1_sent, update_sl_tp2_sent,
                  update_sl_tp3_sent, update_sl_sl_sent, ss_tp1_tp2, ss_tp1_tp3, ss_tp1_sl,
                  ss_tp2_tp1, ss_tp2_tp3, ss_tp2_sl, ss_tp3_tp1, ss_tp3_tp2, ss_tp3_sl,
                  ss_sl_tp1, ss_sl_tp2, ss_sl_tp3]
                first
                  | exact h
                  | exact ss_tp1_superset _ _ _ h
                  | exact ss_tp2_superset _ _ _ h
                  | exact ss_tp3_superset _ _ _ h
                  | exact ss_sl_superset _ _ _ h))

theorem gate_spec_tp1 (tr : TradeTracker) (id : String) :
    ((should_send_tp1 tr id).1 = true ↔ id ∉ tr.tp1_sent)
    ∧ id ∈ (should_send_tp1 tr id).2.tp1_sent
    ∧ (should_send_tp1 (should_send_tp1 tr id).2 id).1 = false := by
  unfold should_send_tp1
  by_cases h : id ∈ tr.tp1_sent <;> simp [h]

theorem gate_spec_tp2 (tr : TradeTracker) (id : String) :
    ((should_send_tp2 tr id).1 = true ↔ id ∉ tr.tp2_sent)
    ∧ id ∈ (should_send_tp2 tr id).2.tp2_sent
    ∧ (should_send_tp2 (should_send_tp2 tr id).2 id).1 = false := by
  unfold should_send_tp2
  by_cases h : id ∈ tr.tp2_sent <;> simp [h]

theorem gate_spec_tp3 (tr : TradeTracker) (id : String) :
    ((should_send_tp3 tr id).1 = true ↔ id ∉ tr.tp3_sent)
    ∧ id ∈ (should_send_tp3 tr id).2.tp3_sent
    ∧ (should_send_tp3 (should_send_tp3 tr id).2 id).1 = false := by
  unfold should_send_tp3
  by_cases h : id ∈ tr.tp3_sent <;> simp [h]

theorem gate_spec_sl (tr : TradeTracker) (id : String) :
    ((should_send_sl tr id).1 = true ↔ id ∉ tr.sl_sent)
    ∧ id ∈ (should_send_sl tr id).2.sl_sent
    ∧ (should_send_sl (should_send_sl tr id).2 id).1 = false := by
  unfold should_send_sl
  by_cases h : id ∈ tr.sl_sent <;> simp [h]

/-- C1: the idempotency gates answer `true` exactly on the first invocation
for a (tradeId, level) pair: the gate returns `true` iff the id is not yet in
that level's id-set, records the id, and returns `false` on any repeated
invocation; no step other than the weekly reset ever removes a recorded id;
and in scenario A (`NEW_TRADE X1`, `TP_HIT TP1 X1`, duplicate
`TP_HIT TP1 X1`) exactly one TP1 notification is dispatched and the trade
stays open with `tp1_hit = true`. -/
theorem C1_idempotency_gate :
    (∀ (tr : TradeTracker) (lvl id : String), lvl ∈ ["TP1", "TP2", "TP3", "SL"] →
       ((gateCall lvl tr id).1 = true ↔ id ∉ gateSent lvl tr)
       ∧ id ∈ gateSent lvl (gateCall lvl tr id).2
       ∧ (gateCall lvl (gateCall lvl tr id).2 id).1 = false)
    ∧ (∀ (st : BotState) (e : BotEvent) (lvl id : String), ¬ isWeeklyJob e →
        id ∈ gateSent lvl st.tracker → id ∈ gateSent lvl (botStep st e).tracker)
    ∧ ((botRun (initBot true)
          [.webhook (some dNewX1) true, .webhook (some dTp1X1) true,
           .webhook (some dTp1X1) true]).sent.filter
            (fun n => n.kind = "TP1_HIT")).length = 1
    ∧ (botRun (initBot true)
          [.webhook (some dNewX1) true, .webhook (some dTp1X1) true,
           .webhook (some dTp1X1) true]).tracker.active_trades "X1" = some 0
    ∧ ((botRun (initBot true)
          [.webhook (some dNewX1) true, .webhook (some dTp1X1) true,
           .webhook (some dTp1X1) true]).tracker.heap 0).tp1_hit = true
    ∧ ((botRun (initBot true)
          [.webhook (some dNewX1) true, .webhook (some dTp1X1) true,
           .webhook (some dTp1X1) true]).tracker.heap 0).closed = false := by
  refine ⟨?_, ?_, by decide, by decide, by decide, by decide⟩
  · intro tr lvl id hlvl
    simp only [List.mem_cons, List.not_mem_nil, or_false] at hlvl
    rcases hlvl with rfl | rfl | rfl | rfl
    · simpa [gateCall, gateSent] using gate_spec_tp1 tr id
    · simpa [gateCall, gateSent] using gate_spec_tp2 tr id
    · simpa [gateCall, gateSent] using gate_spec_tp3 tr id
    · simpa [gateCall, gateSent] using gate_spec_sl tr id
  · intro st e lvl id hne hmem
    unfold gateSent at hmem ⊢
    split_ifs at hmem ⊢
    · exact (step_sent_mono st e hne).1 id hmem
    · exact (step_sent_mono st e hne).2.1 id hmem
    · exact (step_sent_mono st e hne).2.2.1 id hmem
    · exact (step_sent_mono st e hne).2.2.2 id hmem

/-- Witness for C1 at concrete inputs: the TP1 gate answers `false` on its
second invocation for the same id, and a recorded id survives a daily job. -/
theorem C1_idempotency_gate_witness :
    (gateCall "TP1" (gateCall "TP1" initTracker "X").2 "X").1 = false
    ∧ "X" ∈ gateSent "TP1"
        (botStep
          { tracker := (gateCall "TP1" initTracker "X").2, telegramEnabled := true,
            sent := [], failed := [] }
          (.dailyJob true)).tracker :=
  ⟨(C1_idempotency_gate.1 initTracker "TP1" "X" (by simp)).2.2,
   C1_idempotency_gate.2.1
     { tracker := (gateCall "TP1" initTracker "X").2, telegramEnabled := true,
       sent := [], failed := [] }
     (.dailyJob true) "TP1" "X" (by simp [isWeeklyJob]) (by decide)⟩

@[simp]
theorem ss_tp1_heap (tr : TradeTracker) (j : String) : (should_send_tp1 tr j).2.heap = tr.heap := by
  unfold should_send_tp1; split_ifs <;> rfl

@[simp]
theorem ss_tp1_nextRef (tr : TradeTracker) (j : String) : (should_send_tp1 tr j).2.nextRef = tr.nextRef := by
  unfold should_send_tp1; split_ifs <;> rfl

@[simp]
theorem ss_tp1_active (tr : TradeTracker) (j : String) : (should_send_tp1 tr j).2.active_trades = tr.active_trades := by
  unfold should_send_tp1; split_ifs <;> rfl

@[simp]
theorem ss_tp1_closed (tr : TradeTracker) (j : String) : (should_send_tp1 tr j).2.closed_trades = tr.closed_trades := by
  unfold should_send_tp1; split_ifs <;> rfl

@[simp]
theorem ss_tp1_daily (tr : TradeTracker) (j : String) : (should_send_tp1 tr j).2.daily_trades = tr.daily_trades := by
  unfold should_send_tp1; split_ifs <;> rfl

@[simp]
theorem ss_tp1_weekly (tr : TradeTracker) (j : String) : (should_send_tp1 tr j).2.weekly_trades = tr.weekly_trades := by
  unfold should_send_tp1; split_ifs <;> rfl

@[simp]
theorem ss_tp2_heap (tr : TradeTracker) (j : String) : (should_send_tp2 tr j).2.heap = tr.heap := by
  unfold should_send_tp2; split_ifs <;> rfl

@[simp]
theorem ss_tp2_nextRef (tr : TradeTracker) (j : String) : (should_send_tp2 tr j).2.nextRef = tr.nextRef := by
  unfold should_send_tp2; split_ifs <;> rfl

@[simp]
theorem ss_tp2_active (tr : TradeTracker) (j : String) : (should_send_tp2 tr j).2.active_trades = tr.active_trades := by
  unfold should_send_tp2; split_ifs <;> rfl

@[simp]
theorem ss_tp2_closed (tr : TradeTracker) (j : String) : (should_send_tp2 tr j).2.closed_trades = tr.closed_trades := by
  unfold should_send_tp2; split_ifs <;> rfl

@[simp]
theorem ss_tp2_daily (tr : TradeTracker) (j : String) : (should_send_tp2 tr j).2.daily_trades = tr.daily_trades := by
  unfold should_send_tp2; split_ifs <;> rfl

@[simp]
theorem ss_tp2_weekly (tr : TradeTracker) (j : String) : (should_send_tp2 tr j).2.weekly_trades = tr.weekly_trades := by
  unfold should_send_tp2; split_ifs <;> rfl

@[simp]
theorem ss_tp3_heap (tr : TradeTracker) (j : String) : (should_send_tp3 tr j).2.heap = tr.heap := by
  unfold should_send_tp3; split_ifs <;> rfl

@[simp]
theorem ss_tp3_nextRef (tr : TradeTracker) (j : String) : (should_send_tp3 tr j).2.nextRef = tr.nextRef := by
  unfold should_send_tp3; split_ifs <;> rfl

@[simp]
theorem ss_tp3_active (tr : TradeTracker) (j : String) : (should_send_tp3 tr j).2.active_trades = tr.active_trades := by
  unfold should_send_tp3; split_ifs <;> rfl

@[simp]
theorem ss_tp3_closed (tr : TradeTracker) (j : String) : (should_send_tp3 tr j).2.closed_trades = tr.closed_trades := by
  unfold should_send_tp3; split_ifs <;> rfl

@[simp]
theorem ss_tp3_daily (tr : TradeTracker) (j : String) : (should_send_tp3 tr j).2.daily_trades = tr.daily_trades := by
  unfold should_send_tp3; split_ifs <;> rfl

@[simp]
theorem ss_tp3_weekly (tr : TradeTracker) (j : String) : (should_send_tp3 tr j).2.weekly_trades = tr.weekly_trades := by
  unfold should_send_tp3; split_ifs <;> rfl

@[simp]
theorem ss_sl_heap (tr : TradeTracker) (j : String) : (should_send_sl tr j).2.heap = tr.heap := by
  unfold should_send_sl; split_ifs <;> rfl

@[simp]
theorem ss_sl_nextRef (tr : TradeTracker) (j : String) : (should_send_sl tr j).2.nextRef = tr.nextRef := by
  unfold should_send_sl; split_ifs <;> rfl

@[simp]
theorem ss_sl_active (tr : TradeTracker) (j : String) : (should_send_sl tr j).2.active_trades = tr.active_trades := by
  unfold should_send_sl; split_ifs <;> rfl

@[simp]
theorem ss_sl_closed (tr : TradeTracker) (j : String) : (should_send_sl tr j).2.closed_trades = tr.closed_trades := by
  unfold should_send_sl; split_ifs <;> rfl

@[simp]
theorem ss_sl_daily (tr : TradeTracker) (j : String) : (should_send_sl tr j).2.daily_trades = tr.daily_trades := by
  unfold should_send_sl; split_ifs <;> rfl

@[simp]
theorem ss_sl_weekly (tr : TradeTracker) (j : String) : (should_send_sl tr j).2.weekly_trades = tr.weekly_trades := by
  unfold should_send_sl; split_ifs <;> rfl

/-- A level event for an id that is not in `active_trades` leaves the tracker
untouched (`update_trade_tp` returns after the warning log). -/
theorem update_tp_not_found (tr : TradeTracker) (i l : String) (p : ℚ)
    (h : tr.active_trades i = none) : update_trade_tp tr i l p = tr := by
  unfold update_trade_tp; rw [h]

/-- A stop-loss event for an id that is not in `active_trades` leaves the
tracker untouched. -/
theorem update_sl_not_found (tr : TradeTracker) (i : String) (p : ℚ)
    (h : tr.active_trades i = none) : update_trade_sl tr i p = tr := by
  unfold update_trade_sl; rw [h]

@[simp]
theorem handleDispatch_sent (st : BotState) (tr2 : TradeTracker) (k : String)
    (d : EventData) (ok : Bool) :
    (handleDispatch st tr2 k d ok).1.sent =
      if st.telegramEnabled then st.sent ++ [⟨k, d⟩] else st.sent := by
  simp only [handleDispatch, notifierDispatch]; split_ifs <;> rfl

@[simp]
theorem handleDispatch_snd (st : BotState) (tr2 : TradeTracker) (k : String)
    (d : EventData) (ok : Bool) :
    (handleDispatch st tr2 k d ok).2 = if st.telegramEnabled then ok else true := by
  simp only [handleDispatch, notifierDispatch]; split_ifs <;> rfl

@[simp]
theorem handleDispatch_telegram (st : BotState) (tr2 : TradeTracker) (k : String)
    (d : EventData) (ok : Bool) :
    (handleDispatch st tr2 k d ok).1.telegramEnabled = st.telegramEnabled := by
  simp only [handleDispatch, notifierDispatch]; split_ifs <;> rfl

/-- Unknown-trade payload: `TP_HIT{id:"ghost", level:"TP1"}`. -/
def dGhostTp1 : EventData := { event := "TP_HIT", id := "ghost", level := "TP1", price := 1 }

/-- Counterexample to C3 as stated: on a fresh bot, a `TP_HIT TP1` for the
unknown id `"ghost"` is *not* a pure no-op — the TP1 dedup guard absorbs the
id and a TP1 notification is dispatched anyway. -/
theorem C3_counterexample :
    (botStep (initBot true) (.webhook (some dGhostTp1) true)).tracker.tp1_sent = ["ghost"]
    ∧ (botStep (initBot true) (.webhook (some dGhostTp1) true)).sent =
        [⟨"TP1_HIT", dGhostTp1⟩] := by
  decide


/-- Notification kind dispatched by `handle_tp_hit` for each TP level. -/
def hitKind (lvl : String) : String :=
  if lvl = "TP1" then "TP1_HIT" else if lvl = "TP2" then "TP2_HIT" else "TP3_HIT"

theorem unknown_tp1_case (st : BotState) (d : EventData) (ok : Bool)
    (hact : st.tracker.active_trades d.id = none)
    (hev : d.event = "TP_HIT") (hlvl : d.level = "TP1") :
    (process_webhook st d ok).1.tracker.active_trades = st.tracker.active_trades
    ∧ (process_webhook st d ok).1.tracker.closed_trades = st.tracker.closed_trades
    ∧ (process_webhook st d ok).1.tracker.daily_trades = st.tracker.daily_trades
    ∧ (process_webhook st d ok).1.tracker.weekly_trades = st.tracker.weekly_trades
    ∧ (process_webhook st d ok).1.tracker.heap = st.tracker.heap
    ∧ (d.id ∉ st.tracker.tp1_sent →
        (process_webhook st d ok).1.tracker.tp1_sent = d.id :: st.tracker.tp1_sent
        ∧ (st.telegramEnabled = true →
            (process_webhook st d ok).1.sent = st.sent ++ [⟨"TP1_HIT", d⟩]))
    ∧ (d.id ∈ st.tracker.tp1_sent →
        (process_webhook st d ok).1 = st ∧ (process_webhook st d ok).2 = true) := by
  by_cases hmem : d.id ∈ st.tracker.tp1_sent
  · have hg : should_send_tp1 st.tracker d.id = (false, st.tracker) := by
      simp [should_send_tp1, hmem]
    have hh : process_webhook st d ok = (st, true) := by
      simp only [process_webhook, hev, handle_tp_hit, hlvl, hg]
      simp
    refine ⟨?_, ?_, ?_, ?_, ?_, fun h => absurd hmem h, fun _ => ?_⟩ <;> simp [hh]
  · have hg1 : (should_send_tp1 st.tracker d.id).1 = true := by
      simp [should_send_tp1, hmem]
    have hupd : update_trade_tp (should_send_tp1 st.tracker d.id).2 d.id "TP1" d.price =
        (should_send_tp1 st.tracker d.id).2 :=
      update_tp_not_found _ _ _ _ (by rw [ss_tp1_active]; exact hact)
    have htr : (process_webhook st d ok).1.tracker = (should_send_tp1 st.tracker d.id).2 := by
      simp only [process_webhook, hev, handle_tp_hit, hlvl, hg1, hupd]
      simp
    have hsent : (process_webhook st d ok).1.sent =
        if st.telegramEnabled then st.sent ++ [⟨"TP1_HIT", d⟩] else st.sent := by
      simp only [process_webhook, hev, handle_tp_hit, hlvl, hg1, hupd]
      simp
    refine ⟨?_, ?_, ?_, ?_, ?_, ?_, fun h => absurd h hmem⟩
    · rw [htr, ss_tp1_active]
    · rw [htr, ss_tp1_closed]
    · rw [htr, ss_tp1_daily]
    · rw [htr, ss_tp1_weekly]
    · rw [htr, ss_tp1_heap]
    · intro _
      refine ⟨?_, ?_⟩
      · rw [htr]; simp [should_send_tp1, hmem]
      · intro htel; rw [hsent, if_pos htel]

theorem unknown_tp2_case (st : BotState) (d : EventData) (ok : Bool)
    (hact : st.tracker.active_trades d.id = none)
    (hev : d.event = "TP_HIT") (hlvl : d.level = "TP2") :
    (process_webhook st d ok).1.tracker.active_trades = st.tracker.active_trades
    ∧ (process_webhook st d ok).1.tracker.closed_trades = st.tracker.closed_trades
    ∧ (process_webhook st d ok).1.tracker.daily_trades = st.tracker.daily_trades
    ∧ (process_webhook st d ok).1.tracker.weekly_trades = st.tracker.weekly_trades
    ∧ (process_webhook st d ok).1.tracker.heap = st.tracker.heap
    ∧ (d.id ∉ st.tracker.tp2_sent →
        (process_webhook st d ok).1.tracker.tp2_sent = d.id :: st.tracker.tp2_sent
        ∧ (st.telegramEnabled = true →
            (process_webhook st d ok).1.sent = st.sent ++ [⟨"TP2_HIT", d⟩]))
    ∧ (d.id ∈ st.tracker.tp2_sent →
        (process_webhook st d ok).1 = st ∧ (process_webhook st d ok).2 = true) := by
  by_cases hmem : d.id ∈ st.tracker.tp2_sent
  · have hg : should_send_tp2 st.tracker d.id = (false, st.tracker) := by
      simp [should_send_tp2, hmem]
    have hh : process_webhook st d ok = (st, true) := by
      simp only [process_webhook, hev, handle_tp_hit, hlvl, hg]
      simp
    refine ⟨?_, ?_, ?_, ?_, ?_, fun h => absurd hmem h, fun _ => ?_⟩ <;> simp [hh]
  · have hg1 : (should_send_tp2 st.tracker d.id).1 = true := by
      simp [should_send_tp2, hmem]
    have hupd : update_trade_tp (should_send_tp2 st.tracker d.id).2 d.id "TP2" d.price =
        (should_send_tp2 st.tracker d.id).2 :=
      update_tp_not_found _ _ _ _ (by rw [ss_tp2_active]; exact hact)
    have htr : (process_webhook st d ok).1.tracker = (should_send_tp2 st.tracker d.id).2 := by
      simp only [process_webhook, hev, handle_tp_hit, hlvl, hg1, hupd]
      simp
    have hsent : (process_webhook st d ok).1.sent =
        if st.telegramEnabled then st.sent ++ [⟨"TP2_HIT", d⟩] else st.sent := by
      simp only [process_webhook, hev, handle_tp_hit, hlvl, hg1, hupd]
      simp
    refine ⟨?_, ?_, ?_, ?_, ?_, ?_, fun h => absurd h hmem⟩
    · rw [htr, ss_tp2_active]
    · rw [htr, ss_tp2_closed]
    · rw [htr, ss_tp2_daily]
    · rw [htr, ss_tp2_weekly]
    · rw [htr, ss_tp2_heap]
    · intro _
      refine ⟨?_, ?_⟩
      · rw [htr]; simp [should_send_tp2, hmem]
      · intro htel; rw [hsent, if_pos htel]

theorem unknown_tp3_case (st : BotState) (d : EventData) (ok : Bool)
    (hact : st.tracker.active_trades d.id = none)
    (hev : d.event = "TP_HIT") (hlvl : d.level = "TP3") :
    (process_webhook st d ok).1.tracker.active_trades = st.tracker.active_trades
    ∧ (process_webhook st d ok).1.tracker.closed_trades = st.tracker.closed_trades
    ∧ (process_webhook st d ok).1.tracker.daily_trades = st.tracker.daily_trades
    ∧ (process_webhook st d ok).1.tracker.weekly_trades = st.tracker.weekly_trades
    ∧ (process_webhook st d ok).1.tracker.heap = st.tracker.heap
    ∧ (d.id ∉ st.tracker.tp3_sent →
        (process_webhook st d ok).1.tracker.tp3_sent = d.id :: st.tracker.tp3_sent
        ∧ (st.telegramEnabled = true →
            (process_webhook st d ok).1.sent = st.sent ++ [⟨"TP3_HIT", d⟩]))
    ∧ (d.id ∈ st.tracker.tp3_sent →
        (process_webhook st d ok).1 = st ∧ (process_webhook st d ok).2 = true) := by
  by_cases hmem : d.id ∈ st.tracker.tp3_sent
  · have hg : should_send_tp3 st.tracker d.id = (false, st.tracker) := by
      simp [should_send_tp3, hmem]
    have hh : process_webhook st d ok = (st, true) := by
      simp only [process_webhook, hev, handle_tp_hit, hlvl, hg]
      simp
    refine ⟨?_, ?_, ?_, ?_, ?_, fun h => absurd hmem h, fun _ => ?_⟩ <;> simp [hh]
  · have hg1 : (should_send_tp3 st.tracker d.id).1 = true := by
      simp [should_send_tp3, hmem]
    have hupd : update_trade_tp (should_send_tp3 st.tracker d.id).2 d.id "TP3" d.price =
        (should_send_tp3 st.tracker d.id).2 :=
      update_tp_not_found _ _ _ _ (by rw [ss_tp3_active]; exact hact)
    have htr : (process_webhook st d ok).1.tracker = (should_send_tp3 st.tracker d.id).2 := by
      simp only [process_webhook, hev, handle_tp_hit, hlvl, hg1, hupd]
      simp
    have hsent : (process_webhook st d ok).1.sent =
        if st.telegramEnabled then st.sent ++ [⟨"TP3_HIT", d⟩] else st.sent := by
      simp only [process_webhook, hev, handle_tp_hit, hlvl, hg1, hupd]
      simp
    refine ⟨?_, ?_, ?_, ?_, ?_, ?_, fun h => absurd h hmem⟩
    · rw [htr, ss_tp3_active]
    · rw [htr, ss_tp3_closed]
    · rw [htr, ss_tp3_daily]
    · rw [htr, ss_tp3_weekly]
    · rw [htr, ss_tp3_heap]
    · intro _
      refine ⟨?_, ?_⟩
      · rw [htr]; simp [should_send_tp3, hmem]
      · intro htel; rw [hsent, if_pos htel]

/-- C3, corrected: a `TP_HIT` at any level (TP1, TP2 or TP3) or an `SL_HIT`
for an id absent from `active_trades` leaves the trade collections
(`active_trades`, `closed_trades`, both rolling windows, and every trade
object) unchanged and the webhook still answers HTTP 200; but on the first
such event the level's dedup guard is consumed (the id enters that level's
sent-set) and a notification of that level's kind is still dispatched, while
a repeated such event is a complete no-op reported as success. -/
theorem C3_unknown_trade (st : BotState) (d : EventData) (ok : Bool)
    (hact : st.tracker.active_trades d.id = none) :
    (∀ lvl, lvl ∈ ["TP1", "TP2", "TP3"] → d.event = "TP_HIT" → d.level = lvl →
       ((process_webhook st d ok).1.tracker.active_trades = st.tracker.active_trades
        ∧ (process_webhook st d ok).1.tracker.closed_trades = st.tracker.closed_trades
        ∧ (process_webhook st d ok).1.tracker.daily_trades = st.tracker.daily_trades
        ∧ (process_webhook st d ok).1.tracker.weekly_trades = st.tracker.weekly_trades
        ∧ (process_webhook st d ok).1.tracker.heap = st.tracker.heap
        ∧ (d.id ∉ gateSent lvl st.tracker →
            gateSent lvl (process_webhook st d ok).1.tracker = d.id :: gateSent lvl st.tracker
            ∧ (st.telegramEnabled = true →
                (process_webhook st d ok).1.sent = st.sent ++ [⟨hitKind lvl, d⟩]))
        ∧ (d.id ∈ gateSent lvl st.tracker →
            (process_webhook st d ok).1 = st ∧ (process_webhook st d ok).2 = true)))
    ∧ (d.event = "SL_HIT" →
       ((process_webhook st d ok).1.tracker.active_trades = st.tracker.active_trades
        ∧ (process_webhook st d ok).1.tracker.closed_trades = st.tracker.closed_trades
        ∧ (process_webhook st d ok).1.tracker.daily_trades = st.tracker.daily_trades
        ∧ (process_webhook st d ok).1.tracker.weekly_trades = st.tracker.weekly_trades
        ∧ (process_webhook st d ok).1.tracker.heap = st.tracker.heap
        ∧ (d.id ∉ st.tracker.sl_sent →
            (process_webhook st d ok).1.tracker.sl_sent = d.id :: st.tracker.sl_sent
            ∧ (st.telegramEnabled = true →
                (process_webhook st d ok).1.sent = st.sent ++ [⟨"SL_HIT", d⟩]))
        ∧ (d.id ∈ st.tracker.sl_sent →
            (process_webhook st d ok).1 = st ∧ (process_webhook st d ok).2 = true)))
    ∧ (webhookRoute st (some d) ok).2.1 = 200 := by
  refine ⟨?_, ?_, rfl⟩
  · intro lvl hl hev hlvl
    have hl3 : lvl = "TP1" ∨ lvl = "TP2" ∨ lvl = "TP3" := by simpa using hl
    rcases hl3 with rfl | rfl | rfl
    · simpa [gateSent, hitKind] using unknown_tp1_case st d ok hact hev hlvl
    · simpa [gateSent, hitKind] using unknown_tp2_case st d ok hact hev hlvl
    · simpa [gateSent, hitKind] using unknown_tp3_case st d ok hact hev hlvl
  · intro hev
    by_cases hmem : d.id ∈ st.tracker.sl_sent
    · have hg : should_send_sl st.tracker d.id = (false, st.tracker) := by
        simp [should_send_sl, hmem]
      have hh : process_webhook st d ok = (st, true) := by
        simp only [process_webhook, hev, handle_sl_hit, hg]
        simp
      refine ⟨?_, ?_, ?_, ?_, ?_, fun h => absurd hmem h, fun _ => ?_⟩ <;> simp [hh]
    · have hg1 : (should_send_sl st.tracker d.id).1 = true := by
        simp [should_send_sl, hmem]
      have hupd : update_trade_sl (should_send_sl st.tracker d.id).2 d.id d.price =
          (should_send_sl st.tracker d.id).2 :=
        update_sl_not_found _ _ _ (by rw [ss_sl_active]; exact hact)
      have htr : (process_webhook st d ok).1.tracker = (should_send_sl st.tracker d.id).2 := by
        simp only [process_webhook, hev, handle_sl_hit, hg1, hupd]
        simp
      have hsent : (process_webhook st d ok).1.sent =
          if st.telegramEnabled then st.sent ++ [⟨"SL_HIT", d⟩] else st.sent := by
        simp only [process_webhook, hev, handle_sl_hit, hg1, hupd]
        simp
      refine ⟨?_, ?_, ?_, ?_, ?_, ?_, fun h => absurd h hmem⟩
      · rw [htr, ss_sl_active]
      · rw [htr, ss_sl_closed]
      · rw [htr, ss_sl_daily]
      · rw [htr, ss_sl_weekly]
      · rw [htr, ss_sl_heap]
      · intro _
        refine ⟨?_, ?_⟩
        · rw [htr]; simp [should_send_sl, hmem]
        · intro htel; rw [hsent, if_pos htel]

/-- Unknown-trade payload: `TP_HIT{id:"ghost", level:"TP3"}`. -/
def dGhostTp3 : EventData := { event := "TP_HIT", id := "ghost", level := "TP3", price := 1 }

/-- Unknown-trade payload: `SL_HIT{id:"ghost"}`. -/
def dGhostSl : EventData := { event := "SL_HIT", id := "ghost", price := 1 }

/-- Witness for C3 (corrected) at concrete inputs: on a fresh bot, a
`TP_HIT` at TP1 or TP3 (and an `SL_HIT`) for an unknown id preserves
`active_trades`, consumes that level's dedup guard, and the webhook answers
200. -/
theorem C3_unknown_trade_witness :
    (process_webhook (initBot true) dGhostTp1 true).1.tracker.active_trades =
      (initBot true).tracker.active_trades
    ∧ gateSent "TP1" (process_webhook (initBot true) dGhostTp1 true).1.tracker =
        "ghost" :: gateSent "TP1" (initBot true).tracker
    ∧ gateSent "TP3" (process_webhook (initBot true) dGhostTp3 true).1.tracker =
        "ghost" :: gateSent "TP3" (initBot true).tracker
    ∧ (process_webhook (initBot true) dGhostSl true).1.tracker.sl_sent =
        "ghost" :: (initBot true).tracker.sl_sent
    ∧ (webhookRoute (initBot true) (some dGhostTp1) true).2.1 = 200 := by
  have h1 := C3_unknown_trade (initBot true) dGhostTp1 true (by decide)
  have h3 := C3_unknown_trade (initBot true) dGhostTp3 true (by decide)
  have hsl := C3_unknown_trade (initBot true) dGhostSl true (by decide)
  exact ⟨(h1.1 "TP1" (by decide) rfl rfl).1,
         ((h1.1 "TP1" (by decide) rfl rfl).2.2.2.2.2.1 (by decide)).1,
         ((h3.1 "TP3" (by decide) rfl rfl).2.2.2.2.2.1 (by decide)).1,
         ((hsl.2.1 rfl).2.2.2.2.2.1 (by decide)).1,
         h1.2.2⟩

theorem close_trade_found (tr : TradeTracker) (id : String) (ref : Nat)
    (h : tr.active_trades id = some ref) :
    close_trade tr id =
      { tr with
        active_trades := fun k => if k = id then none else tr.active_trades k
        closed_trades := tr.closed_trades ++ [ref] } := by
  unfold close_trade; rw [h]

theorem update_tp1_found (tr : TradeTracker) (id : String) (p : ℚ) (ref : Nat)
    (h : tr.active_trades id = some ref) (hn : (tr.heap ref).tp1_notified = false) :
    update_trade_tp tr id "TP1" p =
      { tr with heap := fun r => if r = ref then
          { tr.heap ref with tp1_hit := true, tp1_notified := true, profit_r := 3/2 }
        else tr.heap r } := by
  unfold update_trade_tp; rw [h]; simp [hn]

theorem update_tp2_found (tr : TradeTracker) (id : String) (p : ℚ) (ref : Nat)
    (h : tr.active_trades id = some ref) (hn : (tr.heap ref).tp2_notified = false) :
    update_trade_tp tr id "TP2" p =
      { tr with heap := fun r => if r = ref then
          { tr.heap ref with tp2_hit := true, tp2_notified := true, profit_r := 5/2 }
        else tr.heap r } := by
  unfold update_trade_tp; rw [h]; simp [hn]

theorem update_tp3_found (tr : TradeTracker) (id : String) (p : ℚ) (ref : Nat)
    (h : tr.active_trades id = some ref) (hn : (tr.heap ref).tp3_notified = false) :
    update_trade_tp tr id "TP3" p =
      close_trade
        { tr with heap := fun r => if r = ref then
            { tr.heap ref with tp3_hit := true, tp3_notified := true,
                               final_result := "TP3", profit_r := 4, closed := true }
          else tr.heap r } id := by
  unfold update_trade_tp; rw [h]; simp [hn]

theorem update_sl_found (tr : TradeTracker) (id : String) (p : ℚ) (ref : Nat)
    (h : tr.active_trades id = some ref) (hn : (tr.heap ref).sl_notified = false) :
    update_trade_sl tr id p =
      close_trade
        { tr with heap := fun r => if r = ref then
            { tr.heap ref with sl_hit := true, sl_notified := true,
                               final_result := "SL", profit_r := -1, closed := true }
          else tr.heap r } id := by
  unfold update_trade_sl; rw [h]; simp [hn]

theorem update_tp1_already (tr : TradeTracker) (id : String) (p : ℚ) (ref : Nat)
    (h : tr.active_trades id = some ref) (hn : (tr.heap ref).tp1_notified = true) :
    update_trade_tp tr id "TP1" p = tr := by
  unfold update_trade_tp; rw [h]; simp [hn]

theorem update_tp2_already (tr : TradeTracker) (id : String) (p : ℚ) (ref : Nat)
    (h : tr.active_trades id = some ref) (hn : (tr.heap ref).tp2_notified = true) :
    update_trade_tp tr id "TP2" p = tr := by
  unfold update_trade_tp; rw [h]; simp [hn]

theorem update_tp3_already (tr : TradeTracker) (id : String) (p : ℚ) (ref : Nat)
    (h : tr.active_trades id = some ref) (hn : (tr.heap ref).tp3_notified = true) :
    update_trade_tp tr id "TP3" p = tr := by
  unfold update_trade_tp; rw [h]; simp [hn]

theorem update_sl_already (tr : TradeTracker) (id : String) (p : ℚ) (ref : Nat)
    (h : tr.active_trades id = some ref) (hn : (tr.heap ref).sl_notified = true) :
    update_trade_sl tr id p = tr := by
  unfold update_trade_sl; rw [h]; simp [hn]

/-- Closing form of `update_trade_sl` on an active, not-yet-notified trade:
the object is stamped SL/closed, removed from `active_trades`, and appended
to `closed_trades`. -/
theorem update_sl_closes (tr : TradeTracker) (id : String) (p : ℚ) (ref : Nat)
    (hact : tr.active_trades id = some ref) (hn : (tr.heap ref).sl_notified = false) :
    update_trade_sl tr id p =
      { tr with
        heap := fun r => if r = ref then
            { tr.heap ref with sl_hit := true, sl_notified := true,
                               final_result := "SL", profit_r := -1, closed := true }
          else tr.heap r,
        active_trades := fun k => if k = id then none else tr.active_trades k,
        closed_trades := tr.closed_trades ++ [ref] } := by
  rw [update_sl_found tr id p ref hact hn]
  unfold close_trade
  dsimp only
  rw [hact]

/-- Closing form of `update_trade_tp` at level TP3 on an active,
not-yet-notified trade. -/
theorem update_tp3_closes (tr : TradeTracker) (id : String) (p : ℚ) (ref : Nat)
    (hact : tr.active_trades id = some ref) (hn : (tr.heap ref).tp3_notified = false) :
    update_trade_tp tr id "TP3" p =
      { tr with
        heap := fun r => if r = ref then
            { tr.heap ref with tp3_hit := true, tp3_notified := true,
                               final_result := "TP3", profit_r := 4, closed := true }
          else tr.heap r,
        active_trades := fun k => if k = id then none else tr.active_trades k,
        closed_trades := tr.closed_trades ++ [ref] } := by
  rw [update_tp3_found tr id p ref hact hn]
  unfold close_trade
  dsimp only
  rw [hact]

/-- Scenario payload: `NEW_TRADE{id:"X2"}`. -/
def dNewX2 : EventData := { event := "NEW_TRADE", id := "X2" }

/-- Scenario payload: `SL_HIT{id:"X2"}`. -/
def dSlX2 : EventData := { event := "SL_HIT", id := "X2", price := 1 }

/-- Scenario payload: `TP_HIT{id:"X2", level:"TP2"}`. -/
def dTp2X2 : EventData := { event := "TP_HIT", id := "X2", level := "TP2", price := 1 }

/-- C4: applying SL (resp. TP3) to an active trade removes it from
`active_trades`, appends it to `closed_trades`, and stamps it
`closed = true` with `final_result` the level (`profit_r` −1.0 for SL, 4.0
for TP3); any level event for an id not in `active_trades` — in particular
for a closed trade — leaves the tracker unchanged; and in scenario B
(`NEW_TRADE X2`, `SL_HIT X2`, then `TP_HIT TP2 X2`) the trade closes with
`final_result = "SL"`, `profit_r = -1`, is moved to history, and the late
TP2 event does not change the trade object, the history, or the active map. -/
theorem C4_close_terminal :
    (∀ (tr : TradeTracker) (id : String) (p : ℚ) (ref : Nat),
       tr.active_trades id = some ref → (tr.heap ref).sl_notified = false →
         (update_trade_sl tr id p).active_trades id = none
         ∧ (update_trade_sl tr id p).closed_trades = tr.closed_trades ++ [ref]
         ∧ (update_trade_sl tr id p).heap ref =
             { tr.heap ref with sl_hit := true, sl_notified := true,
                                final_result := "SL", profit_r := -1, closed := true })
    ∧ (∀ (tr : TradeTracker) (id : String) (p : ℚ) (ref : Nat),
       tr.active_trades id = some ref → (tr.heap ref).tp3_notified = false →
         (update_trade_tp tr id "TP3" p).active_trades id = none
         ∧ (update_trade_tp tr id "TP3" p).closed_trades = tr.closed_trades ++ [ref]
         ∧ (update_trade_tp tr id "TP3" p).heap ref =
             { tr.heap ref with tp3_hit := true, tp3_notified := true,
                                final_result := "TP3", profit_r := 4, closed := true })
    ∧ (∀ (tr : TradeTracker) (id lvl : String) (p : ℚ),
       tr.active_trades id = none →
         update_trade_tp tr id lvl p = tr ∧ update_trade_sl tr id p = tr)
    ∧ ((botRun (initBot true)
         [.webhook (some dNewX2) true, .webhook (some dSlX2) true,
          .webhook (some dTp2X2) true]).tracker.active_trades "X2" = none
       ∧ (botRun (initBot true)
         [.webhook (some dNewX2) true, .webhook (some dSlX2) true,
          .webhook (some dTp2X2) true]).tracker.closed_trades = [0]
       ∧ ((botRun (initBot true)
         [.webhook (some dNewX2) true, .webhook (some dSlX2) true,
          .webhook (some dTp2X2) true]).tracker.heap 0).final_result = "SL"
       ∧ ((botRun (initBot true)
         [.webhook (some dNewX2) true, .webhook (some dSlX2) true,
          .webhook (some dTp2X2) true]).tracker.heap 0).profit_r = -1
       ∧ ((botRun (initBot true)
         [.webhook (some dNewX2) true, .webhook (some dSlX2) true,
          .webhook (some dTp2X2) true]).tracker.heap 0).closed = true
       ∧ (botRun (initBot true)
         [.webhook (some dNewX2) true, .webhook (some dSlX2) true,
          .webhook (some dTp2X2) true]).tracker.heap 0 =
         (botRun (initBot true)
         [.webhook (some dNewX2) true, .webhook (some dSlX2) true]).tracker.heap 0) := by
  refine ⟨?_, ?_, ?_, by decide, by decide, by decide, by decide, by decide, by decide⟩
  · intro tr id p ref hact hn
    rw [update_sl_closes tr id p ref hact hn]
    exact ⟨by simp, rfl, by simp⟩
  · intro tr id p ref hact hn
    rw [update_tp3_closes tr id p ref hact hn]
    exact ⟨by simp, rfl, by simp⟩
  · intro tr id lvl p hact
    exact ⟨update_tp_not_found tr id lvl p hact, update_sl_not_found tr id p hact⟩

/-- Witness for C4 at a concrete input: closing a freshly registered trade by
SL empties `active_trades` for that id, appends it to history with the SL
stamp, and a TP event for an unknown id is a no-op. -/
theorem C4_close_terminal_witness :
    (update_trade_sl (add_trade initTracker (mkTrade dNewX2)) "X2" 1).active_trades "X2" = none
    ∧ (update_trade_sl (add_trade initTracker (mkTrade dNewX2)) "X2" 1).closed_trades = [0]
    ∧ update_trade_tp initTracker "X2" "TP2" 1 = initTracker := by
  have h := C4_close_terminal
  exact ⟨(h.1 (add_trade initTracker (mkTrade dNewX2)) "X2" 1 0 (by decide) (by decide)).1,
         (h.1 (add_trade initTracker (mkTrade dNewX2)) "X2" 1 0 (by decide) (by decide)).2.1,
         (h.2.2.1 initTracker "X2" "TP2" 1 (by decide)).1⟩

/-- Counterexample to C6 as stated: with identical Ledger state and event
(a registered trade `X1` and its first `TP_HIT TP1`), the event handler's
boolean result equals the Telegram send outcome — `false` when the send
fails, `true` when it succeeds — so the handler's result *does* depend on
the delivery outcome. -/
theorem C6_counterexample :
    (process_webhook (botStep (initBot true) (.webhook (some dNewX1) true)) dTp1X1 false).2 = false
    ∧ (process_webhook (botStep (initBot true) (.webhook (some dNewX1) true)) dTp1X1 true).2 = true := by
  decide

/-- C6, corrected: the webhook's HTTP status does not depend on the Telegram
send outcome — it is 200 for every parsed payload (and 400 only for an
unparseable one) — but the event handler's boolean result (hence the JSON
body status) equals the send outcome whenever a notification is dispatched:
on every `NEW_TRADE`, on the first `TP_HIT` at each of TP1/TP2/TP3, and on
the first `SL_HIT` for a given id. -/
theorem C6_success_reporting :
    (∀ (st : BotState) (d : EventData) (ok : Bool), (webhookRoute st (some d) ok).2.1 = 200)
    ∧ (∀ (st : BotState) (ok : Bool), (webhookRoute st none ok).2.1 = 400)
    ∧ (∀ (st : BotState) (d : EventData) (ok : Bool),
        st.telegramEnabled = true → d.event = "NEW_TRADE" →
        (process_webhook st d ok).2 = ok)
    ∧ (∀ (st : BotState) (d : EventData) (ok : Bool) (lvl : String),
        st.telegramEnabled = true → d.event = "TP_HIT" →
        lvl ∈ ["TP1", "TP2", "TP3"] → d.level = lvl → d.id ∉ gateSent lvl st.tracker →
        (process_webhook st d ok).2 = ok)
    ∧ (∀ (st : BotState) (d : EventData) (ok : Bool),
        st.telegramEnabled = true → d.event = "SL_HIT" → d.id ∉ st.tracker.sl_sent →
        (process_webhook st d ok).2 = ok) := by
  refine ⟨fun _ _ _ => rfl, fun _ _ => rfl, ?_, ?_, ?_⟩
  · intro st d ok htel hev
    simp only [process_webhook, hev, handle_new_trade]
    simp [htel]
  · intro st d ok lvl htel hev hl hlvl hmem
    have hl3 : lvl = "TP1" ∨ lvl = "TP2" ∨ lvl = "TP3" := by simpa using hl
    rcases hl3 with rfl | rfl | rfl
    · have hmem1 : d.id ∉ st.tracker.tp1_sent := by simpa [gateSent] using hmem
      have hg1 : (should_send_tp1 st.tracker d.id).1 = true := by
        simp [should_send_tp1, hmem1]
      simp only [process_webhook, hev, handle_tp_hit, hlvl, hg1]
      simp [htel]
    · have hmem1 : d.id ∉ st.tracker.tp2_sent := by simpa [gateSent] using hmem
      have hg1 : (should_send_tp2 st.tracker d.id).1 = true := by
        simp [should_send_tp2, hmem1]
      simp only [process_webhook, hev, handle_tp_hit, hlvl, hg1]
      simp [htel]
    · have hmem1 : d.id ∉ st.tracker.tp3_sent := by simpa [gateSent] using hmem
      have hg1 : (should_send_tp3 st.tracker d.id).1 = true := by
        simp [should_send_tp3, hmem1]
      simp only [process_webhook, hev, handle_tp_hit, hlvl, hg1]
      simp [htel]
  · intro st d ok htel hev hmem
    have hg1 : (should_send_sl st.tracker d.id).1 = true := by
      simp [should_send_sl, hmem]
    simp only [process_webhook, hev, handle_sl_hit, hg1]
    simp [htel]

/-- Witness for C6 (corrected) at concrete inputs: a parsed payload gets
HTTP 200 even when the send fails, and the handler's result is the failed
send outcome on a `NEW_TRADE`, on a first `TP_HIT TP1`, and on a first
`SL_HIT`. -/
theorem C6_success_reporting_witness :
    (webhookRoute (botStep (initBot true) (.webhook (some dNewX1) true)) (some dTp1X1) false).2.1 = 200
    ∧ (process_webhook (initBot true) dNewX1 false).2 = false
    ∧ (process_webhook (botStep (initBot true) (.webhook (some dNewX1) true)) dTp1X1 false).2 = false
    ∧ (process_webhook (initBot true) dGhostSl false).2 = false :=
  ⟨C6_success_reporting.1 (botStep (initBot true) (.webhook (some dNewX1) true)) dTp1X1 false,
   C6_success_reporting.2.2.1 (initBot true) dNewX1 false (by decide) rfl,
   C6_success_reporting.2.2.2.1 (botStep (initBot true) (.webhook (some dNewX1) true)) dTp1X1 false
     "TP1" (by decide) rfl (by decide) rfl (by decide),
   C6_success_reporting.2.2.2.2 (initBot true) dGhostSl false (by decide) rfl (by decide)⟩

/-- Scenario C stimuli: three signals; TP3 on the first two, SL on the third. -/
def esC : List BotEvent :=
  [.webhook (some { event := "NEW_TRADE", id := "T1", symbol := "XAUUSD" }) true,
   .webhook (some { event := "NEW_TRADE", id := "T2", symbol := "XAUUSD" }) true,
   .webhook (some { event := "NEW_TRADE", id := "T3", symbol := "XAUUSD" }) true,
   .webhook (some { event := "TP_HIT", id := "T1", level := "TP3", price := 2 }) true,
   .webhook (some { event := "TP_HIT", id := "T2", level := "TP3", price := 2 }) true,
   .webhook (some { event := "SL_HIT", id := "T3", price := 1 }) true]

/-- Bot state after scenario C. -/
def stC : BotState := botRun (initBot true) esC

theorem fullStatsOf_win_rate (heap : Nat → Trade) (total : Nat) (closed : List Nat) :
    (fullStatsOf heap total closed).win_rate =
      ((fullStatsOf heap total closed).wins : ℚ) / (closed.length : ℚ) * 100 := rfl

theorem fullStatsOf_total_r (heap : Nat → Trade) (total : Nat) (closed : List Nat) :
    (fullStatsOf heap total closed).total_r =
      (closed.map (fun r => (heap r).profit_r)).sum := rfl

theorem fullStatsOf_wins (heap : Nat → Trade) (total : Nat) (closed : List Nat) :
    (fullStatsOf heap total closed).wins =
      (fullStatsOf heap total closed).tp3_count + (fullStatsOf heap total closed).tp2_count
        + (fullStatsOf heap total closed).tp1_count := rfl

/-- C5: `get_daily_stats` (and `get_weekly_stats`) returns `None` on an empty
window; on a window with signals but no closed trade it returns only the
signal/closed/active counts; on a window with at least one closed trade it
returns the full record with `winRate = 100 × wins / N` (wins = trades with a
TP final result) and `totalR = Σ profitR` over the closed trades; and in
scenario C (three closed trades TP3, TP3, SL) the daily stats report
wins = 2, losses = 1, winRate = 200/3 (≈ 66.7%), totalR = 7. -/
theorem C5_compute_stats :
    (∀ tr : TradeTracker, tr.daily_trades = [] → get_daily_stats tr = none)
    ∧ (∀ tr : TradeTracker, tr.weekly_trades = [] → get_weekly_stats tr = none)
    ∧ (∀ tr : TradeTracker, tr.daily_trades ≠ [] → closedDaily tr = [] →
        get_daily_stats tr = some (.onlyCounts tr.daily_trades.length 0 tr.daily_trades.length))
    ∧ (∀ tr : TradeTracker, tr.weekly_trades ≠ [] → closedWeekly tr = [] →
        get_weekly_stats tr = some (.onlyCounts tr.weekly_trades.length 0 tr.weekly_trades.length))
    ∧ (∀ tr : TradeTracker, closedDaily tr ≠ [] →
        ∃ s, get_daily_stats tr = some (.full s)
          ∧ s.wins = s.tp3_count + s.tp2_count + s.tp1_count
          ∧ s.win_rate = 100 * (s.wins : ℚ) / ((closedDaily tr).length : ℚ)
          ∧ s.total_r = ((closedDaily tr).map (fun r => (tr.heap r).profit_r)).sum)
    ∧ (∀ tr : TradeTracker, closedWeekly tr ≠ [] →
        ∃ s bs, get_weekly_stats tr = some (.full s bs)
          ∧ s.wins = s.tp3_count + s.tp2_count + s.tp1_count
          ∧ s.win_rate = 100 * (s.wins : ℚ) / ((closedWeekly tr).length : ℚ)
          ∧ s.total_r = ((closedWeekly tr).map (fun r => (tr.heap r).profit_r)).sum)
    ∧ (∃ s, get_daily_stats stC.tracker = some (.full s)
        ∧ s.total_signals = 3 ∧ s.closed_trades = 3 ∧ s.active_trades = 0
        ∧ s.tp3_count = 2 ∧ s.sl_count = 1 ∧ s.wins = 2 ∧ s.losses = 1
        ∧ s.win_rate = 200 / 3 ∧ s.total_r = 7) := by
  have hdne : ∀ tr : TradeTracker, closedDaily tr ≠ [] → tr.daily_trades ≠ [] := by
    intro tr h hcontra
    exact h (by simp [closedDaily, hcontra])
  have hwne : ∀ tr : TradeTracker, closedWeekly tr ≠ [] → tr.weekly_trades ≠ [] := by
    intro tr h hcontra
    exact h (by simp [closedWeekly, hcontra])
  refine ⟨?_, ?_, ?_, ?_, ?_, ?_, ?_⟩
  · intro tr h; simp [get_daily_stats, h]
  · intro tr h; simp [get_weekly_stats, h]
  · intro tr hne hc
    simp only [get_daily_stats]
    rw [if_neg hne, if_pos hc]
  · intro tr hne hc
    simp only [get_weekly_stats]
    rw [if_neg hne, if_pos hc]
  · intro tr hc
    refine ⟨fullStatsOf tr.heap tr.daily_trades.length (closedDaily tr), ?_, fullStatsOf_wins _ _ _, ?_, fullStatsOf_total_r _ _ _⟩
    · simp only [get_daily_stats]
      rw [if_neg (hdne tr hc), if_neg hc]
    · rw [fullStatsOf_win_rate]; ring
  · intro tr hc
    refine ⟨fullStatsOf tr.heap tr.weekly_trades.length (closedWeekly tr),
            bySymbolOf tr.heap (closedWeekly tr), ?_, fullStatsOf_wins _ _ _, ?_, fullStatsOf_total_r _ _ _⟩
    · simp only [get_weekly_stats]
      rw [if_neg (hwne tr hc), if_neg hc]
    · rw [fullStatsOf_win_rate]; ring
  · refine ⟨fullStatsOf stC.tracker.heap 3 (closedDaily stC.tracker), rfl,
            by decide, by decide, by decide, by decide, by decide, by decide, by decide, ?_, ?_⟩
    · have hw : (fullStatsOf stC.tracker.heap 3 (closedDaily stC.tracker)).wins = 2 := by decide
      have hl : (closedDaily stC.tracker).length = 3 := by decide
      rw [fullStatsOf_win_rate, hw, hl]
      norm_num
    · have hcd : closedDaily stC.tracker = [0, 1, 2] := by decide
      have e0 : (stC.tracker.heap 0).profit_r = 4 := by decide
      have e1 : (stC.tracker.heap 1).profit_r = 4 := by decide
      have e2 : (stC.tracker.heap 2).profit_r = -1 := by decide
      rw [fullStatsOf_total_r, hcd]
      simp [e0, e1, e2]
      norm_num

/-- Witness for C5 at concrete inputs: the empty tracker yields `None`, a
tracker with a single open trade yields only the counts, and scenario C's
tracker yields the full record. -/
theorem C5_compute_stats_witness :
    get_daily_stats initTracker = none
    ∧ get_weekly_stats initTracker = none
    ∧ get_daily_stats (add_trade initTracker (mkTrade dNewX1)) = some (.onlyCounts 1 0 1)
    ∧ (∃ s, get_daily_stats stC.tracker = some (.full s)
        ∧ s.wins = s.tp3_count + s.tp2_count + s.tp1_count
        ∧ s.win_rate = 100 * (s.wins : ℚ) / ((closedDaily stC.tracker).length : ℚ)
        ∧ s.total_r = ((closedDaily stC.tracker).map (fun r => (stC.tracker.heap r).profit_r)).sum) :=
  ⟨C5_compute_stats.1 initTracker rfl,
   C5_compute_stats.2.1 initTracker rfl,
   C5_compute_stats.2.2.1 (add_trade initTracker (mkTrade dNewX1)) (by decide) (by decide),
   C5_compute_stats.2.2.2.2.1 stC.tracker (by decide)⟩

/-- Per-trade agreement of the state flags and the notification flags: for
every level, `*_hit` equals `*_notified`. -/
def FlagsEq (t : Trade) : Prop :=
  t.tp1_hit = t.tp1_notified ∧ t.tp2_hit = t.tp2_notified
    ∧ t.tp3_hit = t.tp3_notified ∧ t.sl_hit = t.sl_notified

theorem FlagsEq_update_tp (tr : TradeTracker) (i l : String) (p : ℚ)
    (h : ∀ r, FlagsEq (tr.heap r)) : ∀ r, FlagsEq ((update_trade_tp tr i l p).heap r) := by
  intro r
  unfold update_trade_tp
  cases hact : tr.active_trades i with
  | none => exact h r
  | some ref =>
      dsimp only
      split_ifs with h1 h2 h3
      · by_cases hr : r = ref
        · subst hr
          simp only [if_pos rfl]
          exact ⟨rfl, (h r).2.1, (h r).2.2.1, (h r).2.2.2⟩
        · simp only [if_neg hr]; exact h r
      · by_cases hr : r = ref
        · subst hr
          simp only [if_pos rfl]
          exact ⟨(h r).1, rfl, (h r).2.2.1, (h r).2.2.2⟩
        · simp only [if_neg hr]; exact h r
      · rw [close_trade_heap]
        by_cases hr : r = ref
        · subst hr
          simp only [if_pos rfl]
          exact ⟨(h r).1, (h r).2.1, rfl, (h r).2.2.2⟩
        · simp only [if_neg hr]; exact h r
      · exact h r

theorem FlagsEq_update_sl (tr : TradeTracker) (i : String) (p : ℚ)
    (h : ∀ r, FlagsEq (tr.heap r)) : ∀ r, FlagsEq ((update_trade_sl tr i p).heap r) := by
  intro r
  unfold update_trade_sl
  cases hact : tr.active_trades i with
  | none => exact h r
  | some ref =>
      dsimp only
      split_ifs with h1
      · rw [close_trade_heap]
        by_cases hr : r = ref
        · subst hr
          simp only [if_pos rfl]
          exact ⟨(h r).1, (h r).2.1, (h r).2.2.1, rfl⟩
        · simp only [if_neg hr]; exact h r
      · exact h r

theorem FlagsEq_step (st : BotState) (e : BotEvent)
    (h : ∀ r, FlagsEq (st.tracker.heap r)) :
    ∀ r, FlagsEq ((botStep st e).tracker.heap r) := by
  cases e with
  | weeklyJob ok =>
      intro r; simp only [botStep, weekly_summary_job, reset_weekly]
      split <;> exact h r
  | dailyJob ok =>
      intro r; simp only [botStep, daily_summary_job, reset_daily]
      split <;> exact h r
  | retryJob oks =>
      intro r; simp only [botStep, retry_job]
      split <;> exact h r
  | webhook p ok =>
      cases p with
      | none => exact h
      | some d =>
          have htp1 : ∀ r2, FlagsEq ((should_send_tp1 st.tracker d.id).2.heap r2) :=
            fun r2 => by rw [ss_tp1_heap]; exact h r2
          have htp2 : ∀ r2, FlagsEq ((should_send_tp2 st.tracker d.id).2.heap r2) :=
            fun r2 => by rw [ss_tp2_heap]; exact h r2
          have htp3 : ∀ r2, FlagsEq ((should_send_tp3 st.tracker d.id).2.heap r2) :=
            fun r2 => by rw [ss_tp3_heap]; exact h r2
          have hsl : ∀ r2, FlagsEq ((should_send_sl st.tracker d.id).2.heap r2) :=
            fun r2 => by rw [ss_sl_heap]; exact h r2
          intro r
          simp only [botStep, webhookRoute, process_webhook]
          split_ifs with h1 h2 h3
          · simp only [handle_new_trade, handleDispatch_tracker]
            show FlagsEq ((add_trade st.tracker (mkTrade d)).heap r)
            by_cases hr : r = st.tracker.nextRef
            · subst hr
              show FlagsEq (if st.tracker.nextRef = st.tracker.nextRef then mkTrade d else st.tracker.heap st.tracker.nextRef)
              rw [if_pos rfl]
              exact ⟨rfl, rfl, rfl, rfl⟩
            · show FlagsEq (if r = st.tracker.nextRef then mkTrade d else st.tracker.heap r)
              rw [if_neg hr]; exact h r
          · simp only [handle_tp_hit]
            split_ifs <;> simp only [handleDispatch_tracker] <;>
              first
                | exact htp1 r
                | exact htp2 r
                | exact htp3 r
                | exact h r
                | exact FlagsEq_update_tp _ _ _ _ htp1 r
                | exact FlagsEq_update_tp _ _ _ _ htp2 r
                | exact FlagsEq_update_tp _ _ _ _ htp3 r
          · simp only [handle_sl_hit]
            split_ifs <;> simp only [handleDispatch_tracker] <;>
              first
                | exact hsl r
                | exact h r
                | exact FlagsEq_update_sl _ _ _ hsl r
          · exact h r

theorem FlagsEq_run (es : List BotEvent) :
    ∀ st : BotState, (∀ r, FlagsEq (st.tracker.heap r)) →
      ∀ r, FlagsEq ((botRun st es).tracker.heap r) := by
  induction es with
  | nil => intro st h; exact h
  | cons e rest ih =>
      intro st h
      exact ih (botStep st e) (FlagsEq_step st e h)

/-- C10: for every trade object reachable from a fresh bot through any
sequence of stimuli, the per-level state flags and notification flags agree:
`tp1_hit = tp1_notified`, `tp2_hit = tp2_notified`, `tp3_hit = tp3_notified`
and `sl_hit = sl_notified` — every guarded branch sets the pair together and
nothing ever sets one without the other. -/
theorem C10_hit_eq_notified (tg : Bool) (es : List BotEvent) (r : Nat) :
    FlagsEq ((botRun (initBot tg) es).tracker.heap r) :=
  FlagsEq_run es (initBot tg) (fun _ => ⟨rfl, rfl, rfl, rfl⟩) r

/-- A properly closed trade: `closed = true` and the terminal stamp is either
TP3 with `profit_r = 4` or SL with `profit_r = -1`. -/
def ClosedOk (t : Trade) : Prop :=
  t.closed = true
    ∧ ((t.final_result = "TP3" ∧ t.profit_r = 4) ∨ (t.final_result = "SL" ∧ t.profit_r = -1))

/-- Structural invariant of reachable tracker states: active references are
allocated, open, not in history, and distinct per id; history references are
allocated and properly closed; window references are allocated, and every
closed trade visible through a window is properly closed. -/
structure TInv (tr : TradeTracker) : Prop where
  activeLt : ∀ id ref, tr.active_trades id = some ref → ref < tr.nextRef
  activeNotClosed : ∀ id ref, tr.active_trades id = some ref → ref ∉ tr.closed_trades
  activeOpen : ∀ id ref, tr.active_trades id = some ref → (tr.heap ref).closed = false
  activeInj : ∀ id1 id2 ref, tr.active_trades id1 = some ref →
    tr.active_trades id2 = some ref → id1 = id2
  closedLt : ∀ ref ∈ tr.closed_trades, ref < tr.nextRef
  closedOk : ∀ ref ∈ tr.closed_trades, ClosedOk (tr.heap ref)
  dailyLt : ∀ ref ∈ tr.daily_trades, ref < tr.nextRef
  weeklyLt : ∀ ref ∈ tr.weekly_trades, ref < tr.nextRef
  dailyOk : ∀ ref ∈ tr.daily_trades, (tr.heap ref).closed = true → ClosedOk (tr.heap ref)
  weeklyOk : ∀ ref ∈ tr.weekly_trades, (tr.heap ref).closed = true → ClosedOk (tr.heap ref)

/-- Mutating the object of an active trade without closing it preserves the
invariant. -/
theorem TInv_mutate (tr : TradeTracker) (hinv : TInv tr) (id : String) (ref : Nat)
    (hact : tr.active_trades id = some ref) (t' : Trade) (hop : t'.closed = false) :
    TInv { tr with heap := fun r => if r = ref then t' else tr.heap r } := by
  have hnc := hinv.activeNotClosed id ref hact
  refine ⟨hinv.activeLt, hinv.activeNotClosed, ?_, hinv.activeInj, hinv.closedLt, ?_,
          hinv.dailyLt, hinv.weeklyLt, ?_, ?_⟩
  · intro id2 ref2 h2
    by_cases hr : ref2 = ref
    · subst hr; simpa using hop
    · simpa [hr] using hinv.activeOpen id2 ref2 h2
  · intro ref2 hm
    have hne : ref2 ≠ ref := fun he => hnc (he ▸ hm)
    simpa [hne] using hinv.closedOk ref2 hm
  · intro ref2 hm
    by_cases hr : ref2 = ref
    · subst hr; simp [hop]
    · simpa [hr] using hinv.dailyOk ref2 hm
  · intro ref2 hm
    by_cases hr : ref2 = ref
    · subst hr; simp [hop]
    · simpa [hr] using hinv.weeklyOk ref2 hm

/-- Closing an active trade — stamping its object with a proper terminal
state, removing the id, and appending the object to history — preserves the
invariant. -/
theorem TInv_close (tr : TradeTracker) (hinv : TInv tr) (id : String) (ref : Nat)
    (hact : tr.active_trades id = some ref) (t' : Trade) (hok : ClosedOk t') :
    TInv { tr with
           heap := fun r => if r = ref then t' else tr.heap r,
           active_trades := fun k => if k = id then none else tr.active_trades k,
           closed_trades := tr.closed_trades ++ [ref] } := by
  have hnc := hinv.activeNotClosed id ref hact
  have hact2 : ∀ id2 ref2, (if id2 = id then none else tr.active_trades id2) = some ref2 →
      id2 ≠ id ∧ tr.active_trades id2 = some ref2 ∧ ref2 ≠ ref := by
    intro id2 ref2 h2
    by_cases hk : id2 = id
    · simp [hk] at h2
    · refine ⟨hk, by simpa [hk] using h2, ?_⟩
      intro he
      subst he
      exact hk (hinv.activeInj id2 id ref2 (by simpa [hk] using h2) hact)
  refine ⟨?_, ?_, ?_, ?_, ?_, ?_, hinv.dailyLt, hinv.weeklyLt, ?_, ?_⟩
  · intro id2 ref2 h2
    exact hinv.activeLt id2 ref2 (hact2 id2 ref2 h2).2.1
  · intro id2 ref2 h2
    obtain ⟨hk, hold, hne⟩ := hact2 id2 ref2 h2
    intro hm
    rcases List.mem_append.1 hm with hm1 | hm2
    · exact hinv.activeNotClosed id2 ref2 hold hm1
    · exact hne (by simpa using hm2)
  · intro id2 ref2 h2
    obtain ⟨hk, hold, hne⟩ := hact2 id2 ref2 h2
    simpa [hne] using hinv.activeOpen id2 ref2 hold
  · intro id1 id2 ref2 h1 h2
    exact hinv.activeInj id1 id2 ref2 (hact2 id1 ref2 h1).2.1 (hact2 id2 ref2 h2).2.1
  · intro ref2 hm
    rcases List.mem_append.1 hm with hm1 | hm2
    · exact hinv.closedLt ref2 hm1
    · have : ref2 = ref := by simpa using hm2
      subst this
      exact hinv.activeLt id ref2 hact
  · intro ref2 hm
    rcases List.mem_append.1 hm with hm1 | hm2
    · have hne : ref2 ≠ ref := fun he => hnc (he ▸ hm1)
      simpa [hne] using hinv.closedOk ref2 hm1
    · have : ref2 = ref := by simpa using hm2
      subst this
      simpa using hok
  · intro ref2 hm
    by_cases hr : ref2 = ref
    · subst hr; intro _; simpa using hok
    · simpa [hr] using hinv.dailyOk ref2 hm
  · intro ref2 hm
    by_cases hr : ref2 = ref
    · subst hr; intro _; simpa using hok
    · simpa [hr] using hinv.weeklyOk ref2 hm

/-- Registering a fresh open trade preserves the invariant. -/
theorem TInv_add (tr : TradeTracker) (t : Trade) (ht : t.closed = false) (hinv : TInv tr) :
    TInv (add_trade tr t) := by
  refine ⟨?_, ?_, ?_, ?_, ?_, ?_, ?_, ?_, ?_, ?_⟩
  · intro id ref h
    by_cases hk : id = t.id
    · simp only [add_trade, hk, if_pos rfl] at h
      have : tr.nextRef = ref := by simpa using h
      simp [add_trade]; omega
    · simp only [add_trade, if_neg hk] at h
      have := hinv.activeLt id ref h
      simp [add_trade]; omega
  · intro id ref h hm
    simp only [add_trade] at h hm
    by_cases hk : id = t.id
    · rw [if_pos hk] at h
      have : tr.nextRef = ref := by simpa using h
      subst this
      exact absurd (hinv.closedLt _ hm) (by omega)
    · rw [if_neg hk] at h
      exact hinv.activeNotClosed id ref h hm
  · intro id ref h
    simp only [add_trade] at h ⊢
    by_cases hk : id = t.id
    · rw [if_pos hk] at h
      have : tr.nextRef = ref := by simpa using h
      subst this
      simpa using ht
    · rw [if_neg hk] at h
      have hlt := hinv.activeLt id ref h
      have : ref ≠ tr.nextRef := by omega
      simpa [this] using hinv.activeOpen id ref h
  · intro id1 id2 ref h1 h2
    simp only [add_trade] at h1 h2
    by_cases hk1 : id1 = t.id <;> by_cases hk2 : id2 = t.id
    · rw [hk1, hk2]
    · rw [if_pos hk1] at h1
      rw [if_neg hk2] at h2
      have e1 : tr.nextRef = ref := by simpa using h1
      have := hinv.activeLt id2 ref h2
      omega
    · rw [if_neg hk1] at h1
      rw [if_pos hk2] at h2
      have e2 : tr.nextRef = ref := by simpa using h2
      have := hinv.activeLt id1 ref h1
      omega
    · rw [if_neg hk1] at h1
      rw [if_neg hk2] at h2
      exact hinv.activeInj id1 id2 ref h1 h2
  · intro ref hm
    simp only [add_trade] at hm ⊢
    have := hinv.closedLt ref hm
    omega
  · intro ref hm
    simp only [add_trade] at hm ⊢
    have hlt := hinv.closedLt ref hm
    have : ref ≠ tr.nextRef := by omega
    simpa [this] using hinv.closedOk ref hm
  · intro ref hm
    simp only [add_trade, List.mem_append, List.mem_singleton] at hm ⊢
    rcases hm with hm | hm
    · have := hinv.dailyLt ref hm; omega
    · omega
  · intro ref hm
    simp only [add_trade, List.mem_append, List.mem_singleton] at hm ⊢
    rcases hm with hm | hm
    · have := hinv.weeklyLt ref hm; omega
    · omega
  · intro ref hm
    simp only [add_trade, List.mem_append, List.mem_singleton] at hm ⊢
    rcases hm with hm | hm
    · have hlt := hinv.dailyLt ref hm
      have hne : ref ≠ tr.nextRef := by omega
      simpa [hne] using hinv.dailyOk ref hm
    · subst hm
      simp [ht]
  · intro ref hm
    simp only [add_trade, List.mem_append, List.mem_singleton] at hm ⊢
    rcases hm with hm | hm
    · have hlt := hinv.weeklyLt ref hm
      have hne : ref ≠ tr.nextRef := by omega
      simpa [hne] using hinv.weeklyOk ref hm
    · subst hm
      simp [ht]

theorem TInv_ss_tp1 (tr : TradeTracker) (j : String) (hinv : TInv tr) :
    TInv (should_send_tp1 tr j).2 := by
  unfold should_send_tp1
  split_ifs
  · exact hinv
  · exact ⟨hinv.activeLt, hinv.activeNotClosed, hinv.activeOpen, hinv.activeInj,
      hinv.closedLt, hinv.closedOk, hinv.dailyLt, hinv.weeklyLt, hinv.dailyOk, hinv.weeklyOk⟩

theorem TInv_ss_tp2 (tr : TradeTracker) (j : String) (hinv : TInv tr) :
    TInv (should_send_tp2 tr j).2 := by
  unfold should_send_tp2
  split_ifs
  · exact hinv
  · exact ⟨hinv.activeLt, hinv.activeNotClosed, hinv.activeOpen, hinv.activeInj,
      hinv.closedLt, hinv.closedOk, hinv.dailyLt, hinv.weeklyLt, hinv.dailyOk, hinv.weeklyOk⟩

theorem TInv_ss_tp3 (tr : TradeTracker) (j : String) (hinv : TInv tr) :
    TInv (should_send_tp3 tr j).2 := by
  unfold should_send_tp3
  split_ifs
  · exact hinv
  · exact ⟨hinv.activeLt, hinv.activeNotClosed, hinv.activeOpen, hinv.activeInj,
      hinv.closedLt, hinv.closedOk, hinv.dailyLt, hinv.weeklyLt, hinv.dailyOk, hinv.weeklyOk⟩

theorem TInv_ss_sl (tr : TradeTracker) (j : String) (hinv : TInv tr) :
    TInv (should_send_sl tr j).2 := by
  unfold should_send_sl
  split_ifs
  · exact hinv
  · exact ⟨hinv.activeLt, hinv.activeNotClosed, hinv.activeOpen, hinv.activeInj,
      hinv.closedLt, hinv.closedOk, hinv.dailyLt, hinv.weeklyLt, hinv.dailyOk, hinv.weeklyOk⟩

/-- A TP event whose level string is none of TP1/TP2/TP3 falls through every
branch and leaves the tracker unchanged. -/
theorem update_tp_other (tr : TradeTracker) (i l : String) (p : ℚ)
    (h1 : ¬ l = "TP1") (h2 : ¬ l = "TP2") (h3 : ¬ l = "TP3") :
    update_trade_tp tr i l p = tr := by
  unfold update_trade_tp
  cases tr.active_trades i
  · rfl
  · dsimp only; simp [h1, h2, h3]

theorem TInv_update_tp (tr : TradeTracker) (i l : String) (p : ℚ) (hinv : TInv tr) :
    TInv (update_trade_tp tr i l p) := by
  cases hact : tr.active_trades i with
  | none => rw [update_tp_not_found tr i l p hact]; exact hinv
  | some ref =>
      by_cases hl1 : l = "TP1"
      · subst hl1
        by_cases hn : (tr.heap ref).tp1_notified = false
        · rw [update_tp1_found tr i p ref hact hn]
          exact TInv_mutate tr hinv i ref hact _ (hinv.activeOpen i ref hact)
        · rw [update_tp1_already tr i p ref hact (by simpa using hn)]
          exact hinv
      · by_cases hl2 : l = "TP2"
        · subst hl2
          by_cases hn : (tr.heap ref).tp2_notified = false
          · rw [update_tp2_found tr i p ref hact hn]
            exact TInv_mutate tr hinv i ref hact _ (hinv.activeOpen i ref hact)
          · rw [update_tp2_already tr i p ref hact (by simpa using hn)]
            exact hinv
        · by_cases hl3 : l = "TP3"
          · subst hl3
            by_cases hn : (tr.heap ref).tp3_notified = false
            · rw [update_tp3_closes tr i p ref hact hn]
              exact TInv_close tr hinv i ref hact _ ⟨rfl, Or.inl ⟨rfl, rfl⟩⟩
            · rw [update_tp3_already tr i p ref hact (by simpa using hn)]
              exact hinv
          · rw [update_tp_other tr i l p hl1 hl2 hl3]
            exact hinv

theorem TInv_update_sl (tr : TradeTracker) (i : String) (p : ℚ) (hinv : TInv tr) :
    TInv (update_trade_sl tr i p) := by
  cases hact : tr.active_trades i with
  | none => rw [update_sl_not_found tr i p hact]; exact hinv
  | some ref =>
      by_cases hn : (tr.heap ref).sl_notified = false
      · rw [update_sl_closes tr i p ref hact hn]
        exact TInv_close tr hinv i ref hact _ ⟨rfl, Or.inr ⟨rfl, rfl⟩⟩
      · rw [update_sl_already tr i p ref hact (by simpa using hn)]
        exact hinv

theorem TInv_reset_daily (tr : TradeTracker) (hinv : TInv tr) : TInv (reset_daily tr) :=
  ⟨hinv.activeLt, hinv.activeNotClosed, hinv.activeOpen, hinv.activeInj,
   hinv.closedLt, hinv.closedOk,
   fun ref hm => absurd hm (List.not_mem_nil ref), hinv.weeklyLt,
   fun ref hm => absurd hm (List.not_mem_nil ref), hinv.weeklyOk⟩

theorem TInv_reset_weekly (tr : TradeTracker) (hinv : TInv tr) : TInv (reset_weekly tr) :=
  ⟨hinv.activeLt, hinv.activeNotClosed, hinv.activeOpen, hinv.activeInj,
   hinv.closedLt, hinv.closedOk, hinv.dailyLt,
   fun ref hm => absurd hm (List.not_mem_nil ref), hinv.dailyOk,
   fun ref hm => absurd hm (List.not_mem_nil ref)⟩

theorem TInv_step (st : BotState) (e : BotEvent) (hinv : TInv st.tracker) :
    TInv (botStep st e).tracker := by
  cases e with
  | weeklyJob ok =>
      simp only [botStep, weekly_summary_job]
      split <;> exact TInv_reset_weekly _ hinv
  | dailyJob ok =>
      simp only [botStep, daily_summary_job]
      split <;> exact TInv_reset_daily _ hinv
  | retryJob oks =>
      simp only [botStep, retry_job]
      split <;> exact hinv
  | webhook p ok =>
      cases p with
      | none => exact hinv
      | some d =>
          simp only [botStep, webhookRoute, process_webhook]
          split_ifs with h1 h2 h3
          · simp only [handle_new_trade, handleDispatch_tracker]
            exact TInv_add st.tracker (mkTrade d) rfl hinv
          · simp only [handle_tp_hit]
            split_ifs <;> simp only [handleDispatch_tracker] <;>
              first
                | exact TInv_ss_tp1 st.tracker d.id hinv
                | exact TInv_ss_tp2 st.tracker d.id hinv
                | exact TInv_ss_tp3 st.tracker d.id hinv
                | exact hinv
                | exact TInv_update_tp _ _ _ _ (TInv_ss_tp1 st.tracker d.id hinv)
                | exact TInv_update_tp _ _ _ _ (TInv_ss_tp2 st.tracker d.id hinv)
                | exact TInv_update_tp _ _ _ _ (TInv_ss_tp3 st.tracker d.id hinv)
          · simp only [handle_sl_hit]
            split_ifs <;> simp only [handleDispatch_tracker] <;>
              first
                | exact TInv_ss_sl st.tracker d.id hinv
                | exact hinv
                | exact TInv_update_sl _ _ _ (TInv_ss_sl st.tracker d.id hinv)
          · exact hinv

theorem TInv_init : TInv initTracker :=
  ⟨fun _ _ h => Option.noConfusion h,
   fun _ _ h => Option.noConfusion h,
   fun _ _ h => Option.noConfusion h,
   fun _ _ _ h _ => Option.noConfusion h,
   fun ref hm => absurd hm (List.not_mem_nil ref),
   fun ref hm => absurd hm (List.not_mem_nil ref),
   fun ref hm => absurd hm (List.not_mem_nil ref),
   fun ref hm => absurd hm (List.not_mem_nil ref),
   fun ref hm => absurd hm (List.not_mem_nil ref),
   fun ref hm => absurd hm (List.not_mem_nil ref)⟩

theorem TInv_run (es : List BotEvent) :
    ∀ st : BotState, TInv st.tracker → TInv (botRun st es).tracker := by
  induction es with
  | nil => intro st h; exact h
  | cons e rest ih => intro st h; exact ih (botStep st e) (TInv_step st e h)

/-- Under the invariant, a full daily stats record has no TP1/TP2 outcomes
among closed trades, so `wins` collapses to the TP3 count. -/
theorem daily_full_counts (tr : TradeTracker) (hinv : TInv tr) (s : FullStats)
    (hs : get_daily_stats tr = some (.full s)) :
    s.tp1_count = 0 ∧ s.tp2_count = 0 ∧ s.wins = s.tp3_count := by
  by_cases hd : tr.daily_trades = []
  · simp [get_daily_stats, hd] at hs
  · by_cases hc : closedDaily tr = []
    · simp only [get_daily_stats] at hs
      rw [if_neg hd, if_pos hc] at hs
      simp at hs
    · have hs2 : fullStatsOf tr.heap tr.daily_trades.length (closedDaily tr) = s := by
        simp only [get_daily_stats] at hs
        rw [if_neg hd, if_neg hc] at hs
        injection hs with h'
        injection h'
      have key : ∀ r ∈ closedDaily tr,
          (tr.heap r).final_result = "TP3" ∨ (tr.heap r).final_result = "SL" := by
        intro r hr
        have hmem := List.mem_filter.1 hr
        have hcl : (tr.heap r).closed = true := by simpa using hmem.2
        rcases (hinv.dailyOk r hmem.1 hcl).2 with ⟨hf, _⟩ | ⟨hf, _⟩
        · exact Or.inl hf
        · exact Or.inr hf
      have h1 : s.tp1_count = 0 := by
        rw [← hs2]
        show ((closedDaily tr).filter (fun r => (tr.heap r).final_result = "TP1")).length = 0
        rw [List.length_eq_zero, List.filter_eq_nil_iff]
        intro r hr
        rcases key r hr with hf | hf <;> simp [hf]
      have h2 : s.tp2_count = 0 := by
        rw [← hs2]
        show ((closedDaily tr).filter (fun r => (tr.heap r).final_result = "TP2")).length = 0
        rw [List.length_eq_zero, List.filter_eq_nil_iff]
        intro r hr
        rcases key r hr with hf | hf <;> simp [hf]
      refine ⟨h1, h2, ?_⟩
      have hw : s.wins = s.tp3_count + s.tp2_count + s.tp1_count := by
        rw [← hs2]; exact fullStatsOf_wins _ _ _
      omega

/-- Weekly analogue of `daily_full_counts`. -/
theorem weekly_full_counts (tr : TradeTracker) (hinv : TInv tr) (s : FullStats)
    (bs : List (String × SymStats))
    (hs : get_weekly_stats tr = some (.full s bs)) :
    s.tp1_count = 0 ∧ s.tp2_count = 0 ∧ s.wins = s.tp3_count := by
  by_cases hd : tr.weekly_trades = []
  · simp [get_weekly_stats, hd] at hs
  · by_cases hc : closedWeekly tr = []
    · simp only [get_weekly_stats] at hs
      rw [if_neg hd, if_pos hc] at hs
      simp at hs
    · have hs2 : fullStatsOf tr.heap tr.weekly_trades.length (closedWeekly tr) = s := by
        simp only [get_weekly_stats] at hs
        rw [if_neg hd, if_neg hc] at hs
        injection hs with h'
        injection h'
      have key : ∀ r ∈ closedWeekly tr,
          (tr.heap r).final_result = "TP3" ∨ (tr.heap r).final_result = "SL" := by
        intro r hr
        have hmem := List.mem_filter.1 hr
        have hcl : (tr.heap r).closed = true := by simpa using hmem.2
        rcases (hinv.weeklyOk r hmem.1 hcl).2 with ⟨hf, _⟩ | ⟨hf, _⟩
        · exact Or.inl hf
        · exact Or.inr hf
      have h1 : s.tp1_count = 0 := by
        rw [← hs2]
        show ((closedWeekly tr).filter (fun r => (tr.heap r).final_result = "TP1")).length = 0
        rw [List.length_eq_zero, List.filter_eq_nil_iff]
        intro r hr
        rcases key r hr with hf | hf <;> simp [hf]
      have h2 : s.tp2_count = 0 := by
        rw [← hs2]
        show ((closedWeekly tr).filter (fun r => (tr.heap r).final_result = "TP2")).length = 0
        rw [List.length_eq_zero, List.filter_eq_nil_iff]
        intro r hr
        rcases key r hr with hf | hf <;> simp [hf]
      refine ⟨h1, h2, ?_⟩
      have hw : s.wins = s.tp3_count + s.tp2_count + s.tp1_count := by
        rw [← hs2]; exact fullStatsOf_wins _ _ _
      omega

/-- C9: in every reachable bot state, every trade in `closed_trades` is
properly closed — `closed = true` and `final_result` is `"TP3"` with
`profit_r = 4` or `"SL"` with `profit_r = -1` (TP1/TP2 never close a
trade) — and consequently every full stats record computed over a window has
`tp1_count = 0`, `tp2_count = 0` and `wins = tp3_count`. -/
theorem C9_closed_trades_terminal (tg : Bool) (es : List BotEvent) :
    (∀ ref ∈ (botRun (initBot tg) es).tracker.closed_trades,
        ClosedOk ((botRun (initBot tg) es).tracker.heap ref))
    ∧ (∀ s, get_daily_stats (botRun (initBot tg) es).tracker = some (.full s) →
        s.tp1_count = 0 ∧ s.tp2_count = 0 ∧ s.wins = s.tp3_count)
    ∧ (∀ s bs, get_weekly_stats (botRun (initBot tg) es).tracker = some (.full s bs) →
        s.tp1_count = 0 ∧ s.tp2_count = 0 ∧ s.wins = s.tp3_count) := by
  have hinv := TInv_run es (initBot tg) TInv_init
  exact ⟨hinv.closedOk,
         fun s hs => daily_full_counts _ hinv s hs,
         fun s bs hs => weekly_full_counts _ hinv s bs hs⟩

/-- Witness for C9 at a concrete input: after scenario C the first history
entry is properly closed, and the full daily stats record has zero TP1/TP2
counts with `wins = tp3_count`. -/
theorem C9_closed_trades_terminal_witness :
    ClosedOk (stC.tracker.heap 0)
    ∧ ((fullStatsOf stC.tracker.heap 3 (closedDaily stC.tracker)).tp1_count = 0
       ∧ (fullStatsOf stC.tracker.heap 3 (closedDaily stC.tracker)).tp2_count = 0
       ∧ (fullStatsOf stC.tracker.heap 3 (closedDaily stC.tracker)).wins =
           (fullStatsOf stC.tracker.heap 3 (closedDaily stC.tracker)).tp3_count) :=
  ⟨(C9_closed_trades_terminal true esC).1 0 (by decide),
   (C9_closed_trades_terminal true esC).2.1
     (fullStatsOf stC.tracker.heap 3 (closedDaily stC.tracker)) rfl⟩
